import Mathlib

/-!
Kubeturbo horizontal scaling executor.

A shallow embedding of `pkg/action/util/util.go`,
`pkg/action/executor/horizontal_scaler.go` and `pkg/api/vmtapi.go`.

* Go maps `map[string]string` are association lists; `m[k]` is `StringMap.index`.
* Go `int32` values are integers, arithmetic goes through `wrap32`.
* A Go function returning `(*T, error)` returns an `Outcome T`: either the pair
  that was returned (each half may be nil) or a nil-pointer panic.
* The scaler record holds what its collaborators look like: the objects stored
  in the API server and the calls it rejects, the subscriptions of the broker and
  what it delivers, the answers of the scheduler. A run returns the record as it
  stands afterwards together with the calls it issued, in order.
-/

namespace Kubeturbo

/-! ## Basic values -/

/-- Go `map[string]string` (a nil map ranges and indexes like the empty one). -/
abbrev StringMap := List (String × String)

/-- Go index expression `m[key]`: the zero value `""` when the key is absent. -/
def StringMap.index (m : StringMap) (key : String) : String :=
  (m.lookup key).getD ""

/-- Smallest `int32`. -/
def minInt32 : Int := -2147483648

/-- Largest `int32`. -/
def maxInt32 : Int := 2147483647

/-- The value is representable as a Go `int32`. -/
def isInt32 (n : Int) : Prop := minInt32 ≤ n ∧ n ≤ maxInt32

instance (n : Int) : Decidable (isInt32 n) := by
  unfold isInt32; exact inferInstance

/-- Result of an `int32` operation whose exact result is `x`: two's complement wrap-around. -/
def wrap32 (x : Int) : Int := (x + 2147483648) % 4294967296 - 2147483648

/-- Go `error` values. `msg` is `errors.New`, `wrap` is `fmt.Errorf` with the
cause as its `%s` argument (other format arguments are not tracked), `remote`
is an error handed back by the API server or the scheduler. -/
inductive Error where
  | remote : Error
  | msg (text : String) : Error
  | wrap (format : String) (cause : Error) : Error
  deriving DecidableEq, Repr

/-- What a call of a Go function with result `(*T, error)` does: it returns a
pair, each half of which may be nil, or it panics on a nil pointer dereference. -/
inductive Outcome (α : Type) where
  | ret (val : Option α) (err : Option Error) : Outcome α
  | panic : Outcome α
  deriving DecidableEq, Repr

/-- The return `x, nil`. -/
abbrev Outcome.ok {α : Type} (a : α) : Outcome α := .ret (some a) none

/-- The return `nil, err`. -/
abbrev Outcome.fail {α : Type} (e : Error) : Outcome α := .ret none (some e)

/-! ## Cluster objects -/

/-- The fields of `api.ObjectReference` that the executor reads. -/
structure ObjectReference where
  UID : String
  Namespace : String
  Name : String
  Kind : String
  deriving DecidableEq, Repr

/-- The fields of `api.Pod` that the executor reads. `Labels` is `none` for a nil
map. `ParentRef` is what `discutil.FindParentReferenceObject` answers for the pod
(that helper is outside the embedded sources, its answer is a parameter). -/
structure Pod where
  UID : String
  Namespace : String
  Name : String
  Labels : Option StringMap
  ParentRef : Option ObjectReference
  deriving DecidableEq, Repr

/-- The fields of `api.ReplicationController` that the executor reads.
`Replicas` is the pointer field `Spec.Replicas`, `none` when nil. -/
structure ReplicationController where
  Namespace : String
  Name : String
  Selector : StringMap
  Replicas : Option Int
  deriving DecidableEq, Repr

/-- The fields of a `Deployment` that the executor reads. `Selector` is the
pointer field `Spec.Selector` (`none` when nil) reduced to its `MatchLabels`,
`Replicas` is the pointer field `Spec.Replicas`. -/
structure Deployment where
  Namespace : String
  Name : String
  Selector : Option StringMap
  Replicas : Option Int
  deriving DecidableEq, Repr

/-- The objects stored in the API server. -/
structure Cluster where
  pods : List Pod
  rcs : List ReplicationController
  deployments : List Deployment
  deriving DecidableEq, Repr

/-- Which remote calls the API server rejects. -/
structure Faults where
  podList : Bool
  rcList : Bool
  deploymentList : Bool
  rcGet : Bool
  podGet : Bool
  rcUpdate : Bool
  deploymentUpdate : Bool
  deriving DecidableEq, Repr

/-- No remote call is rejected. -/
def Faults.none : Faults :=
  ⟨false, false, false, false, false, false, false⟩

/-- The cluster as seen through `kubeClient`. -/
structure KubeClient where
  cluster : Cluster
  faults : Faults
  deriving DecidableEq, Repr

/-! ## `pkg/action/util/util.go` -/

/-- `GetAllReplicationControllers`: the controllers of one namespace. -/
def GetAllReplicationControllers (kubeClient : KubeClient) (ns : String) :
    Outcome (List ReplicationController) :=
  if kubeClient.faults.rcList then
    .fail (.wrap "Error when getting all the replication controllers: %s" .remote)
  else
    .ok (kubeClient.cluster.rcs.filter (fun rc => rc.Namespace = ns))

/-- `GetAllDeployments`: the deployments of one namespace. -/
def GetAllDeployments (kubeClient : KubeClient) (ns : String) :
    Outcome (List Deployment) :=
  if kubeClient.faults.deploymentList then
    .fail (.wrap "Error when getting all the deployments: %s" .remote)
  else
    .ok (kubeClient.cluster.deployments.filter (fun d => d.Namespace = ns))

/-- The inner loop of `findRCBasedOnPodLabel` and `findDeploymentBasedOnPodLabel`:
the value of the flag (`findRC`, `findDeployment`) when the loop over the
selector entries is left. -/
def selectorLoop (labels : StringMap) : StringMap → Bool
  | [] => true
  | (key, val) :: rest =>
    if labels.index key = "" ∨ labels.index key ≠ val then false
    else selectorLoop labels rest

/-- `findRCBasedOnPodLabel`. -/
def findRCBasedOnPodLabel (rcList : List ReplicationController) (labels : StringMap) :
    Outcome ReplicationController :=
  match rcList with
  | [] => .fail (.msg "No RC has selectors match Pod labels.")
  | rc :: rest =>
    if selectorLoop labels rc.Selector then .ok rc
    else findRCBasedOnPodLabel rest labels

/-- `findDeploymentBasedOnPodLabel`. Reading `MatchLabels` through a nil
`Spec.Selector` panics. -/
def findDeploymentBasedOnPodLabel (deploymentsList : List Deployment) (labels : StringMap) :
    Outcome Deployment :=
  match deploymentsList with
  | [] => .fail (.msg "No Deployment has selectors match Pod labels.")
  | deployment :: rest =>
    match deployment.Selector with
    | none => .panic
    | some matchLabels =>
      if selectorLoop labels matchLabels then .ok deployment
      else findDeploymentBasedOnPodLabel rest labels

/-- `FindReplicationControllerForPod`. -/
def FindReplicationControllerForPod (kubeClient : KubeClient) (currentPod : Pod) :
    Outcome ReplicationController :=
  match currentPod.Labels with
  | some podLabels =>
    match GetAllReplicationControllers kubeClient currentPod.Namespace with
    | .ret allRCs none =>
      match findRCBasedOnPodLabel (allRCs.getD []) podLabels with
      | .ret rc none => .ret rc none
      | .ret _ (some err) => .fail (.wrap "Failed to find RC for Pod %s/%s: %s" err)
      | .panic => .panic
    | .ret _ (some _) => .fail (.msg "Error  getting RC list")
    | .panic => .panic
  | none => .ret none none

/-- `FindDeploymentForPod`. -/
def FindDeploymentForPod (kubeClient : KubeClient) (currentPod : Pod) :
    Outcome Deployment :=
  match currentPod.Labels with
  | some podLabels =>
    match GetAllDeployments kubeClient currentPod.Namespace with
    | .ret allDeployments none =>
      match findDeploymentBasedOnPodLabel (allDeployments.getD []) podLabels with
      | .ret rc none => .ret rc none
      | .ret _ (some err) => .fail (.wrap "Failed to find Deployment for Pod %s/%s: %s" err)
      | .panic => .panic
    | .ret _ (some _) => .fail (.msg "Error  getting Deployment list")
    | .panic => .panic
  | none => .ret none none

/-- The loop of `GetPodFromUUID` over the listed pods. -/
def findPodByUID (podUUID : String) : List Pod → Outcome Pod
  | [] => .fail (.msg "cannot find pod based on given uuid: %s")
  | pod :: rest => if pod.UID = podUUID then .ok pod else findPodByUID podUUID rest

/-- `GetPodFromUUID`: lists the pods of all namespaces and scans them. -/
def GetPodFromUUID (kubeClient : KubeClient) (podUUID : String) : Outcome Pod :=
  if kubeClient.faults.podList then
    .fail (.wrap "error getting all the desired pods from Kubernetes cluster: %s" .remote)
  else findPodByUID podUUID kubeClient.cluster.pods

/-! ## Action items (`proto`) -/

/-- The values of `proto.EntityDTO_EntityType` the executor tells apart; `OTHER`
stands for every remaining value of the enumeration, the default one included. -/
inductive EntityType where
  | CONTAINER_POD | APPLICATION | VIRTUAL_APPLICATION | OTHER
  deriving DecidableEq, Repr

/-- The values of `proto.ActionItemDTO_ActionType` the executor tells apart;
`OTHER` stands for every remaining value of the enumeration. -/
inductive ActionType where
  | PROVISION | MOVE | OTHER
  deriving DecidableEq, Repr

/-- An entry of the list `EntityDTO.CommoditiesBought`. -/
structure CommodityBought where
  ProviderType : EntityType
  ProviderId : String
  deriving DecidableEq, Repr

/-- The fields of `proto.EntityDTO` that the executor reads. -/
structure EntityDTO where
  EntityType : EntityType
  Id : String
  CommoditiesBought : List CommodityBought
  deriving DecidableEq, Repr

/-- An entry of `ActionItemDTO.Providers`: `proto.ActionItemDTO_ProviderInfo`. -/
structure ProviderInfo where
  EntityType : EntityType
  Ids : List String
  deriving DecidableEq, Repr

/-- The fields of `proto.ActionItemDTO` that the executor reads. Pointer fields
are options, `none` when nil. -/
structure ActionItemDTO where
  ActionType : ActionType
  Uuid : Option String
  TargetSE : Option EntityDTO
  CurrentSE : Option EntityDTO
  Providers : List (Option ProviderInfo)
  deriving DecidableEq, Repr

/-- `(*EntityDTO).GetEntityType`: nil-safe getter. -/
def GetEntityType : Option EntityDTO → EntityType
  | some e => e.EntityType
  | none => .OTHER

/-- `(*EntityDTO).GetCommoditiesBought`: nil-safe getter. -/
def GetCommoditiesBought : Option EntityDTO → List CommodityBought
  | some e => e.CommoditiesBought
  | none => []

/-- `(*EntityDTO).GetId`: nil-safe getter. -/
def GetId : Option EntityDTO → String
  | some e => e.Id
  | none => ""

/-- The loop of `FindApplicationPodProvider` over the ids of one provider:
`none` when the loop ends without returning. -/
def findPodAmongIds (kubeClient : KubeClient) : List String → Option (Outcome Pod)
  | [] => none
  | id :: rest =>
    match GetPodFromUUID kubeClient id with
    | .ret podProvider none => some (.ret podProvider none)
    | .ret _ (some _) => findPodAmongIds kubeClient rest
    | .panic => some .panic

/-- The loop of `FindApplicationPodProvider` over the providers. -/
def findPodAmongProviders (kubeClient : KubeClient) : List (Option ProviderInfo) → Outcome Pod
  | [] => .fail (.msg "Cannot find any Pod provider")
  | none :: rest => findPodAmongProviders kubeClient rest
  | some providerInfo :: rest =>
    if providerInfo.EntityType = .CONTAINER_POD then
      match findPodAmongIds kubeClient providerInfo.Ids with
      | some out => out
      | none => findPodAmongProviders kubeClient rest
    else findPodAmongProviders kubeClient rest

/-- `FindApplicationPodProvider`. -/
def FindApplicationPodProvider (kubeClient : KubeClient)
    (providers : List (Option ProviderInfo)) : Outcome Pod :=
  if providers.length < 1 then .fail (.msg "Cannot find any provider.")
  else findPodAmongProviders kubeClient providers

/-! ## Action records (`turboaction`) -/

/-- Modelled from the spec: the constant `turboaction.TypePod`, the kind of a target object. -/
def TypePod : String := "Pod"

/-- Modelled from the spec: the constant `turboaction.TypeReplicationController`,
the kind of a replication-controller parent. -/
def TypeReplicationController : String := "ReplicationController"

/-- Modelled from the spec: the constant `turboaction.TypeReplicaSet`, the kind
of a replica-set parent. -/
def TypeReplicaSet : String := "ReplicaSet"

/-- The values of `turboaction.TurboActionType` the executor tells apart. -/
inductive TurboActionType where
  | ActionProvision | ActionUnbind | ActionOther
  deriving DecidableEq, Repr

/-- The states of an action record: `turboaction.TurboActionStatus`. -/
inductive TurboActionStatus where
  | Pending | Executing | Executed | Failed
  deriving DecidableEq, Repr

/-- The record `turboaction.TargetObject`. -/
structure TargetObject where
  TargetObjectUID : String
  TargetObjectNamespace : String
  TargetObjectName : String
  TargetObjectType : String
  deriving DecidableEq, Repr

/-- The record `turboaction.ParentObjectRef`. -/
structure ParentObjectRef where
  ParentObjectUID : String
  ParentObjectNamespace : String
  ParentObjectName : String
  ParentObjectType : String
  deriving DecidableEq, Repr

/-- The record `turboaction.ScaleSpec`, two `int32` fields. -/
structure ScaleSpec where
  OriginalReplicas : Int
  NewReplicas : Int
  deriving DecidableEq, Repr

/-- The interface `turboaction.ActionSpec`: a scale spec, or a value of any
other dynamic type (nil included). -/
inductive ActionSpec where
  | scale (spec : ScaleSpec) : ActionSpec
  | other : ActionSpec
  deriving DecidableEq, Repr

/-- The record `turboaction.TurboActionContent`. -/
structure TurboActionContent where
  ActionType : TurboActionType
  TargetObject : TargetObject
  ParentObjectRef : ParentObjectRef
  ActionSpec : ActionSpec
  deriving DecidableEq, Repr

/-- The record `turboaction.TurboAction` (time stamps left out). -/
structure TurboAction where
  Namespace : String
  UID : String
  Content : TurboActionContent
  Status : TurboActionStatus
  deriving DecidableEq, Repr

/-- Modelled from the spec: the builders `NewTurboActionContentBuilder` and
`NewTurboActionBuilder` of package `turboaction`, which assemble the record from
their arguments; a record is created in the first state, `Pending`. -/
def NewTurboAction (ns uid : String) (actionType : TurboActionType)
    (targetObject : TargetObject) (scaleSpec : ScaleSpec) (parentObjRef : ParentObjectRef) :
    TurboAction :=
  { Namespace := ns
    UID := uid
    Content :=
      { ActionType := actionType
        TargetObject := targetObject
        ParentObjectRef := parentObjRef
        ActionSpec := .scale scaleSpec }
    Status := .Pending }

/-! ## Broker and scheduler -/

/-- What the receive on `podConsumer.WaitPod()` raced against the timer yields. -/
inductive WaitResult where
  | delivered (pod : Pod) : WaitResult
  | closed : WaitResult
  | timeout : WaitResult
  deriving DecidableEq, Repr

/-- Modelled from the spec: the broker of package `turbostore`, a set of
subscription slots `(key, consumer id)`. `delivery` fixes what a consumer
waiting on it will see. -/
structure Broker where
  subscribers : List (String × String)
  delivery : WaitResult
  deriving DecidableEq, Repr

/-- Modelled from the spec: `turbostore.NewPodConsumer uid key broker`, which
registers the new consumer for `key` (`subscribe(key) -> handle`). -/
def NewPodConsumer (uid key : String) (broker : Broker) : Broker :=
  { broker with subscribers := broker.subscribers ++ [(key, uid)] }

/-- Modelled from the spec: `podConsumer.Leave key broker`, which releases the
slot of the consumer (`unsubscribe(key, handle)`). -/
def Leave (uid key : String) (broker : Broker) : Broker :=
  { broker with subscribers := broker.subscribers.filter (fun s => s ≠ (key, uid)) }

/-- The scheduler: what `Schedule` answers for a pod (`none` is a nil error). -/
structure TurboScheduler where
  Schedule : Pod → Option Error

/-- The record `HorizontalScaler`. -/
structure HorizontalScaler where
  kubeClient : KubeClient
  broker : Broker
  scheduler : TurboScheduler

/-- The calls with an effect outside the process, in the order they are issued. -/
inductive Event where
  | subscribe (key uid : String) : Event
  | updateRC (rc : ReplicationController) : Event
  | updateDeployment (deployment : Deployment) : Event
  | waitPod (key : String) : Event
  | leave (key uid : String) : Event
  | schedule (pod : Pod) : Event
  deriving DecidableEq, Repr

/-- The event is an update call against a controller. -/
def Event.isUpdate : Event → Bool
  | .updateRC _ => true
  | .updateDeployment _ => true
  | _ => false

/-! ## `pkg/action/executor/horizontal_scaler.go` -/

/-- The loop of `getProviderPod` over the commodities bought: the value of
`podID` when the loop is left (every matching entry overwrites it). -/
def scanCommoditiesBought (podID : String) : List CommodityBought → String
  | [] => podID
  | cb :: rest =>
    scanCommoditiesBought (if cb.ProviderType = .CONTAINER_POD then cb.ProviderId else podID) rest

/-- `HorizontalScaler.getProviderPod`. -/
def getProviderPod (h : HorizontalScaler) (actionItem : ActionItemDTO) : Outcome Pod :=
  let targetEntityType := GetEntityType actionItem.TargetSE
  if targetEntityType = .CONTAINER_POD then
    match GetPodFromUUID h.kubeClient (GetId actionItem.TargetSE) with
    | .ret foundPod none => .ret foundPod none
    | .ret _ (some err) => .fail (.wrap "failed to find pod %s in Kubernetes: %s" err)
    | .panic => .panic
  else if targetEntityType = .APPLICATION then
    match FindApplicationPodProvider h.kubeClient actionItem.Providers with
    | .ret foundPod none => .ret foundPod none
    | .ret _ (some err) =>
      .fail (.wrap "failed to find provider pod for %s in Kubernetes: %s" err)
    | .panic => .panic
  else if targetEntityType = .VIRTUAL_APPLICATION then
    if GetEntityType actionItem.CurrentSE ≠ .APPLICATION then
      .fail (.msg "Unexpected entity type for a Unbind action: %s")
    else
      let podID := scanCommoditiesBought "" (GetCommoditiesBought actionItem.CurrentSE)
      if podID = "" then
        .fail (.msg "cannot find provider pod for application %s based on commodities bought map %++v")
      else
        match GetPodFromUUID h.kubeClient podID with
        | .ret foundPod none => .ret foundPod none
        | .ret _ (some err) => .fail (.wrap "failed to find pod with ID %s in Kubernetes: %s" err)
        | .panic => .panic
  else .ret none none

/-- The `switch parentRefObject.Kind` of `buildPendingScalingTurboAction`: the
scale spec it assigns, or the return it takes. Reading `Spec.Replicas` through
a nil controller or a nil `Replicas` pointer panics. -/
def switchParentKind (h : HorizontalScaler) (providerPod : Pod)
    (parentRefObject : ObjectReference) (diff : Int) : Outcome ScaleSpec :=
  if parentRefObject.Kind = TypeReplicationController then
    match FindReplicationControllerForPod h.kubeClient providerPod with
    | .ret _ (some err) =>
      .fail (.wrap "Failed to find replication controller for finishing the scaling action: %s" err)
    | .ret none none => .panic
    | .ret (some rc) none =>
      match rc.Replicas with
      | none => .panic
      | some replicas =>
        .ok { OriginalReplicas := replicas, NewReplicas := wrap32 (replicas + diff) }
    | .panic => .panic
  else if parentRefObject.Kind = TypeReplicaSet then
    match FindDeploymentForPod h.kubeClient providerPod with
    | .ret _ (some err) =>
      .fail (.wrap "Failed to find deployment for finishing the scaling action: %s" err)
    | .ret none none => .panic
    | .ret (some deployment) none =>
      match deployment.Replicas with
      | none => .panic
      | some replicas =>
        .ok { OriginalReplicas := replicas, NewReplicas := wrap32 (replicas + diff) }
    | .panic => .panic
  else .fail (.msg "Error Scale Pod for %s-%s: Not Supported.")

/-- The `if`/`else if` on the action type of `buildPendingScalingTurboAction`:
`diff` and `actionType`, or `none` for the return "Not a scaling action.". -/
def diffAndActionType : ActionType → Option (Int × TurboActionType)
  | .PROVISION => some (1, .ActionProvision)
  | .MOVE => some (-1, .ActionUnbind)
  | .OTHER => none

/-- `HorizontalScaler.buildPendingScalingTurboAction`. -/
def buildPendingScalingTurboAction (h : HorizontalScaler) (actionItem : ActionItemDTO) :
    Outcome TurboAction :=
  let targetEntityType := GetEntityType actionItem.TargetSE
  if targetEntityType ≠ .CONTAINER_POD ∧ targetEntityType ≠ .APPLICATION then
    .fail (.msg "The target service entity for scaling action is neither a Pod nor an Application.")
  else
    match getProviderPod h actionItem with
    | .ret _ (some err) =>
      .fail (.wrap "Try to scaling %s, but cannot find a pod related to it in the cluster: %s" err)
    | .panic => .panic
    | .ret none none => .panic
    | .ret (some providerPod) none =>
      let targetObject : TargetObject :=
        { TargetObjectUID := providerPod.UID
          TargetObjectNamespace := providerPod.Namespace
          TargetObjectName := providerPod.Name
          TargetObjectType := TypePod }
      match providerPod.ParentRef with
      | none =>
        .fail (.msg ("Cannot perform auto-scale, please make sure the pod is connected to " ++
          "a replication controller or replica set."))
      | some parentRefObject =>
        let parentObjRef : ParentObjectRef :=
          { ParentObjectUID := parentRefObject.UID
            ParentObjectNamespace := parentRefObject.Namespace
            ParentObjectName := parentRefObject.Name
            ParentObjectType := parentRefObject.Kind }
        match diffAndActionType actionItem.ActionType with
        | none => .fail (.msg "Not a scaling action.")
        | some (diff, actionType) =>
          match switchParentKind h providerPod parentRefObject diff with
          | .ret _ (some err) => .fail err
          | .panic => .panic
          | .ret none none => .panic
          | .ret (some scaleSpec) none =>
            if scaleSpec.NewReplicas < 0 then .fail (.msg "Invalid new replica %d for %s/%s")
            else
              match actionItem.Uuid with
              | none => .panic
              | some uuid =>
                .ok (NewTurboAction parentObjRef.ParentObjectNamespace uuid actionType
                  targetObject scaleSpec parentObjRef)

/-- What a call of a Go function with result `error` does. -/
inductive ErrOutcome where
  | ret (err : Option Error) : ErrOutcome
  | panic : ErrOutcome
  deriving DecidableEq, Repr

/-- A run of the replica mutator: what it returned, the cluster afterwards, and
the calls it issued. -/
structure UpdateRun where
  err : ErrOutcome
  kubeClient : KubeClient
  trace : List Event
  deriving DecidableEq, Repr

/-- The remote call `ReplicationControllers(ns).Get(name)`. -/
def getReplicationController (kubeClient : KubeClient) (ns name : String) :
    Outcome ReplicationController :=
  if kubeClient.faults.rcGet then .fail .remote
  else
    match kubeClient.cluster.rcs.find? (fun rc => rc.Namespace = ns ∧ rc.Name = name) with
    | some rc => .ok rc
    | none => .fail .remote

/-- The remote call `Pods(ns).Get(name)`. -/
def getPod (kubeClient : KubeClient) (ns name : String) : Outcome Pod :=
  if kubeClient.faults.podGet then .fail .remote
  else
    match kubeClient.cluster.pods.find? (fun pod => pod.Namespace = ns ∧ pod.Name = name) with
    | some pod => .ok pod
    | none => .fail .remote

/-- The stored controllers after `ReplicationControllers(ns).Update(rc)` went through. -/
def storeReplicationController (cluster : Cluster) (rc : ReplicationController) : Cluster :=
  { cluster with
    rcs := cluster.rcs.map
      (fun old => if old.Namespace = rc.Namespace ∧ old.Name = rc.Name then rc else old) }

/-- The stored deployments after `Deployments(ns).Update(deployment)` went through. -/
def storeDeployment (cluster : Cluster) (deployment : Deployment) : Cluster :=
  { cluster with
    deployments := cluster.deployments.map
      (fun old =>
        if old.Namespace = deployment.Namespace ∧ old.Name = deployment.Name then deployment
        else old) }

/-- `HorizontalScaler.updateReplicationControllerReplicas`. -/
def updateReplicationControllerReplicas (kubeClient : KubeClient)
    (rc : ReplicationController) (newReplicas : Int) : UpdateRun :=
  let rc := { rc with Replicas := some newReplicas }
  if kubeClient.faults.rcUpdate then
    { err := .ret (some (.wrap "Error updating replication controller %s/%s: %s" .remote))
      kubeClient := kubeClient
      trace := [.updateRC rc] }
  else
    { err := .ret none
      kubeClient := { kubeClient with cluster := storeReplicationController kubeClient.cluster rc }
      trace := [.updateRC rc] }

/-- `HorizontalScaler.updateDeploymentReplicas`. Writing `Spec.Replicas` through
a nil deployment panics. -/
def updateDeploymentReplicas (kubeClient : KubeClient)
    (deployment : Option Deployment) (newReplicas : Int) : UpdateRun :=
  match deployment with
  | none => { err := .panic, kubeClient := kubeClient, trace := [] }
  | some deployment =>
    let deployment := { deployment with Replicas := some newReplicas }
    if kubeClient.faults.deploymentUpdate then
      { err := .ret (some (.wrap "Error updating replication controller %s/%s: %s" .remote))
        kubeClient := kubeClient
        trace := [.updateDeployment deployment] }
    else
      { err := .ret none
        kubeClient := { kubeClient with cluster := storeDeployment kubeClient.cluster deployment }
        trace := [.updateDeployment deployment] }

/-- `HorizontalScaler.updateReplica`. -/
def updateReplica (kubeClient : KubeClient) (targetObject : TargetObject)
    (parentObjRef : ParentObjectRef) (actionSpec : ActionSpec) : UpdateRun :=
  match actionSpec with
  | .other =>
    { err := .ret (some (.msg "%++v is not a scale spec")), kubeClient := kubeClient, trace := [] }
  | .scale scaleSpec =>
    let providerType := parentObjRef.ParentObjectType
    if providerType = TypeReplicationController then
      match getReplicationController kubeClient parentObjRef.ParentObjectNamespace
          parentObjRef.ParentObjectName with
      | .ret _ (some err) =>
        { err := .ret (some (.wrap
            "Failed to find replication controller for finishing the scaling action: %s" err))
          kubeClient := kubeClient
          trace := [] }
      | .ret (some rc) none =>
        updateReplicationControllerReplicas kubeClient rc scaleSpec.NewReplicas
      | _ => { err := .panic, kubeClient := kubeClient, trace := [] }
    else if providerType = TypeReplicaSet then
      match getPod kubeClient targetObject.TargetObjectNamespace
          targetObject.TargetObjectName with
      | .ret _ (some err) =>
        { err := .ret (some (.wrap
            "Failed to find deployemnet for finishing the scaling action: %s" err))
          kubeClient := kubeClient
          trace := [] }
      | .ret (some providerPod) none =>
        match FindDeploymentForPod kubeClient providerPod with
        | .ret _ (some err) =>
          { err := .ret (some (.wrap
              "Failed to find deployment for finishing the scaling action: %s" err))
            kubeClient := kubeClient
            trace := [] }
        | .ret deployment none =>
          updateDeploymentReplicas kubeClient deployment scaleSpec.NewReplicas
        | .panic => { err := .panic, kubeClient := kubeClient, trace := [] }
      | _ => { err := .panic, kubeClient := kubeClient, trace := [] }
    else
      { err := .ret (some (.msg "Unsupported provider type %s"))
        kubeClient := kubeClient
        trace := [] }

/-- A run of `horizontalScale`: what it returned, the record it was given as it
stands afterwards (the record is updated in place), the scaler's collaborators
afterwards, and the calls it issued. -/
structure ScaleRun where
  result : Outcome TurboAction
  action : TurboAction
  scaler : HorizontalScaler
  trace : List Event

/-- `HorizontalScaler.horizontalScale`. -/
def horizontalScale (h : HorizontalScaler) (action : TurboAction) : ScaleRun :=
  let actionContent := action.Content
  match actionContent.ActionSpec with
  | .other =>
    { result := .fail (.msg
        "Failed to setup horizontal scaler as the provided scale spec is invalid.")
      action := action, scaler := h, trace := [] }
  | .scale scaleSpec =>
    if scaleSpec.NewReplicas < 0 then
      { result := .fail (.msg
          "Failed to setup horizontal scaler as the provided scale spec is invalid.")
        action := action, scaler := h, trace := [] }
    else if actionContent.ParentObjectRef.ParentObjectUID = "" then
      { result := .fail (.msg ("Failed to setup horizontal scaler consumer: failed to retrieve " ++
          "the UID of replication controller or replica set."))
        action := action, scaler := h, trace := [] }
    else
      let key := actionContent.ParentObjectRef.ParentObjectUID
      let broker := NewPodConsumer action.UID key h.broker
      let upd := updateReplica h.kubeClient actionContent.TargetObject
        actionContent.ParentObjectRef actionContent.ActionSpec
      let h1 : HorizontalScaler := { h with kubeClient := upd.kubeClient, broker := broker }
      let trace1 := Event.subscribe key action.UID :: upd.trace
      match upd.err with
      | .panic => { result := .panic, action := action, scaler := h1, trace := trace1 }
      | .ret (some err) =>
        { result := .fail (.wrap "Failed to update replica: %s" err)
          action := action, scaler := h1, trace := trace1 }
      | .ret none =>
        if action.Content.ActionType = .ActionUnbind then
          let action := { action with Status := .Executed }
          { result := .ok action, action := action, scaler := h1, trace := trace1 }
        else
          match broker.delivery with
          | .delivered pod =>
            let h2 : HorizontalScaler := { h1 with broker := Leave action.UID key broker }
            let trace2 := trace1 ++ [.waitPod key, .leave key action.UID, .schedule pod]
            match h.scheduler.Schedule pod with
            | some err =>
              { result := .fail (.wrap "Error scheduling the new provisioned pod: %s" err)
                action := action, scaler := h2, trace := trace2 }
            | none =>
              let action := { action with Status := .Executed }
              { result := .ok action, action := action, scaler := h2, trace := trace2 }
          | .closed =>
            { result := .fail (.msg
                "Failed to receive the pending pod generated as a result of auto scaling.")
              action := action, scaler := h1, trace := trace1 ++ [.waitPod key] }
          | .timeout =>
            { result := .fail (.msg
                "Timed out at the second phase when try to finish the horizontal scale process")
              action := action, scaler := h1, trace := trace1 ++ [.waitPod key] }

/-- A run of `Execute`: what it returned, the record it built (if it got that
far) as it stands afterwards, the scaler's collaborators afterwards, and the
calls it issued. -/
structure ExecRun where
  result : Outcome TurboAction
  built : Option TurboAction
  scaler : HorizontalScaler
  trace : List Event

/-- `HorizontalScaler.Execute`. -/
def Execute (h : HorizontalScaler) (actionItem : Option ActionItemDTO) : ExecRun :=
  match actionItem with
  | none =>
    { result := .fail (.msg "ActionItem passed in is nil"), built := none, scaler := h, trace := [] }
  | some actionItem =>
    match buildPendingScalingTurboAction h actionItem with
    | .ret _ (some err) => { result := .fail err, built := none, scaler := h, trace := [] }
    | .panic => { result := .panic, built := none, scaler := h, trace := [] }
    | .ret none none => { result := .panic, built := none, scaler := h, trace := [] }
    | .ret (some action) none =>
      let run := horizontalScale h action
      { result := run.result, built := some run.action, scaler := run.scaler, trace := run.trace }

/-- The replica count an update call carries (`none` for any other event). -/
def Event.replicas : Event → Option Int
  | .updateRC rc => rc.Replicas
  | .updateDeployment d => d.Replicas
  | _ => none

/-- The event is a call of the scheduler. -/
def Event.isSchedule : Event → Bool
  | .schedule _ => true
  | _ => false

/-! ## Example inputs -/

/-- Controller `rc-1` with 2 replicas, selecting `app=web`. -/
def exRC : ReplicationController :=
  { Namespace := "ns", Name := "rc-1", Selector := [("app", "web")], Replicas := some 2 }

/-- A pod owned by `rc-1`. -/
def exPod : Pod :=
  { UID := "pod-uid-1", Namespace := "ns", Name := "web-1"
    Labels := some [("app", "web"), ("tier", "fe")]
    ParentRef := some
      { UID := "rc-uid-1", Namespace := "ns", Name := "rc-1", Kind := TypeReplicationController } }

/-- The pod that the controller creates after a scale-out. -/
def exNewPod : Pod := { exPod with UID := "pod-uid-2", Name := "web-2" }

/-- A cluster holding `rc-1` and its pod. -/
def exCluster : Cluster := { pods := [exPod], rcs := [exRC], deployments := [] }

/-- A scaler on `exCluster` with the given faults, broker delivery and scheduler answer. -/
def exScaler (faults : Faults) (delivery : WaitResult) (answer : Option Error) :
    HorizontalScaler :=
  { kubeClient := { cluster := exCluster, faults := faults }
    broker := { subscribers := [], delivery := delivery }
    scheduler := { Schedule := fun _ => answer } }

/-- An action item of the given type targeting `exPod`. -/
def exItem (actionType : ActionType) : ActionItemDTO :=
  { ActionType := actionType
    Uuid := some "action-1"
    TargetSE := some { EntityType := .CONTAINER_POD, Id := "pod-uid-1", CommoditiesBought := [] }
    CurrentSE := none
    Providers := [] }

/-- The record built for an action on `exPod` with the given type and scale spec. -/
def exAction (actionType : TurboActionType) (spec : ScaleSpec) : TurboAction :=
  NewTurboAction "ns" "action-1" actionType
    { TargetObjectUID := "pod-uid-1", TargetObjectNamespace := "ns"
      TargetObjectName := "web-1", TargetObjectType := TypePod }
    spec
    { ParentObjectUID := "rc-uid-1", ParentObjectNamespace := "ns"
      ParentObjectName := "rc-1", ParentObjectType := TypeReplicationController }

/-- The scaler `exScaler` on a cluster in which `rc-1` has the given replica count. -/
def exScalerWith (replicas : Int) : HorizontalScaler :=
  { exScaler Faults.none (.delivered exNewPod) none with
    kubeClient :=
      { cluster := { exCluster with rcs := [{ exRC with Replicas := some replicas }] }
        faults := Faults.none } }

/-! ## Selector matching as the specification words it -/

/-- The specification's matching property: the selector's match-set is a subset
of the pod's labels, every selector key is present in the labels with an equal
value. -/
def selectorSubset (selector labels : StringMap) : Prop :=
  ∀ kv ∈ selector, labels.lookup kv.1 = some kv.2

instance (selector labels : StringMap) : Decidable (selectorSubset selector labels) := by
  unfold selectorSubset; exact inferInstance

/-- The matching property with the restriction the loop adds: every selector key
is present in the labels with an equal value, and that value is not empty. -/
def selectorSubsetNonEmpty (selector labels : StringMap) : Prop :=
  ∀ kv ∈ selector, labels.lookup kv.1 = some kv.2 ∧ kv.2 ≠ ""

instance (selector labels : StringMap) :
    Decidable (selectorSubsetNonEmpty selector labels) := by
  unfold selectorSubsetNonEmpty; exact inferInstance

/-- A controller whose selector has an entry with an empty value. -/
def exEmptyValueRC : ReplicationController :=
  { Namespace := "ns", Name := "rc-e", Selector := [("a", "")], Replicas := some 1 }

/-- A deployment whose selector has an entry with an empty value. -/
def exEmptyValueDeployment : Deployment :=
  { Namespace := "ns", Name := "d-e", Selector := some [("a", "")], Replicas := some 1 }

/-- A deployment without a selector. -/
def exNoSelectorDeployment : Deployment :=
  { Namespace := "ns", Name := "d-nil", Selector := none, Replicas := some 1 }

/-- A deployment selecting `app=web`. -/
def exDeployment : Deployment :=
  { Namespace := "ns", Name := "web", Selector := some [("app", "web")], Replicas := some 2 }

/-- A controller selecting `app=db`. -/
def exOtherRC : ReplicationController :=
  { Namespace := "ns", Name := "rc-db", Selector := [("app", "db")], Replicas := some 1 }

/-- A deployment selecting `app=db`. -/
def exOtherDeployment : Deployment :=
  { Namespace := "ns", Name := "db", Selector := some [("app", "db")], Replicas := some 1 }

/-- A pod of `rc-1` whose label map is nil. -/
def exUnlabelledPod : Pod := { exPod with UID := "pod-uid-3", Name := "web-3", Labels := none }

/-- A pod with a replica-set parent whose label map is nil. -/
def exUnlabelledRSPod : Pod :=
  { UID := "pod-uid-4", Namespace := "ns", Name := "web-4", Labels := none
    ParentRef := some
      { UID := "rs-uid-1", Namespace := "ns", Name := "web-rs", Kind := TypeReplicaSet } }

/-- A scaler on a cluster that also holds the two pods without labels. -/
def exUnlabelledScaler : HorizontalScaler :=
  { exScaler Faults.none .timeout none with
    kubeClient :=
      { cluster :=
          { pods := [exPod, exUnlabelledPod, exUnlabelledRSPod]
            rcs := [exRC]
            deployments := [exDeployment] }
        faults := Faults.none } }

/-- An action item of the given type targeting the pod with the given UID. -/
def exItemFor (actionType : ActionType) (uid : String) : ActionItemDTO :=
  { exItem actionType with
    TargetSE := some { EntityType := .CONTAINER_POD, Id := uid, CommoditiesBought := [] } }

/-- An action item whose target has the given entity type. -/
def exItemOfType (entityType : EntityType) (actionType : ActionType) : ActionItemDTO :=
  { exItem actionType with
    TargetSE := some { EntityType := entityType, Id := "pod-uid-1", CommoditiesBought := [] } }

/-- The API server rejects `ReplicationControllers(ns).Get`. -/
def exFaultsRCGet : Faults := { Faults.none with rcGet := true }

/-! ## `pkg/api/vmtapi.go` -/

/-- The fields of `http.Response` that the client reads. `Body` is what
`ioutil.ReadAll(resp.Body)` yields: the content, or `none` when reading fails. -/
structure Response where
  StatusCode : Int
  Body : Option String
  deriving DecidableEq, Repr

/-- The package `net/http` as the client uses it, a parameter of the embedding:
whether `http.NewRequest` accepts a method and a URL, and what `client.Do`
answers for a request with method, URL and basic-authentication user and
password (`none` is a non-nil error). -/
structure HttpLayer where
  NewRequest : String → String → Bool
  Do : String → String → String → String → Option Response

/-- The record `VmtApi`. -/
structure VmtApi where
  vmtUrl : String
  extConfig : StringMap
  deriving DecidableEq, Repr

/-- What a call of a Go function with result `(string, error)` does. -/
inductive StringOutcome where
  | ret (content : String) (err : Option Error) : StringOutcome
  | panic : StringOutcome
  deriving DecidableEq, Repr

/-- `parseAPICallResponse`. -/
def parseAPICallResponse (resp : Option Response) : String × Option Error :=
  match resp with
  | none => ("", some (.msg "response sent in is nil"))
  | some resp =>
    match resp.Body with
    | none => ("", some .remote)
    | some content => (content, none)

/-- `VmtApi.apiPost`. The error of `http.NewRequest` is not looked at: with a nil
request `req.SetBasicAuth` panics. -/
def apiPost (http : HttpLayer) (vmtApi : VmtApi) (postUrl requestDataString : String) :
    StringOutcome :=
  let fullUrl := vmtApi.vmtUrl ++ "/vmturbo/api" ++ postUrl ++ requestDataString
  if http.NewRequest "POST" fullUrl = false then .panic
  else
    match http.Do "POST" fullUrl (vmtApi.extConfig.index "Username")
        (vmtApi.extConfig.index "Password") with
    | none => .ret "" (some .remote)
    | some resp =>
      match parseAPICallResponse (some resp) with
      | (respContent, err) =>
        if err ≠ none then .ret "" err
        else if resp.StatusCode ≠ 200 then .ret "" err
        else .ret respContent none

/-- `VmtApi.apiGet`. -/
def apiGet (http : HttpLayer) (vmtApi : VmtApi) (getUrl : String) : StringOutcome :=
  let fullUrl := vmtApi.vmtUrl ++ "/vmturbo/api" ++ getUrl
  if http.NewRequest "GET" fullUrl = false then .panic
  else
    match http.Do "GET" fullUrl (vmtApi.extConfig.index "Username")
        (vmtApi.extConfig.index "Password") with
    | none => .ret "" (some .remote)
    | some resp =>
      match parseAPICallResponse (some resp) with
      | (respContent, err) =>
        if err ≠ none then .ret "" err
        else if resp.StatusCode ≠ 200 then .ret "" err
        else .ret respContent none

/-- `VmtApi.apiDelete`. -/
def apiDelete (http : HttpLayer) (vmtApi : VmtApi) (getUrl : String) : StringOutcome :=
  let fullUrl := vmtApi.vmtUrl ++ "/vmturbo/api" ++ getUrl
  if http.NewRequest "DELETE" fullUrl = false then .panic
  else
    match http.Do "DELETE" fullUrl (vmtApi.extConfig.index "Username")
        (vmtApi.extConfig.index "Password") with
    | none => .ret "" (some .remote)
    | some resp =>
      match parseAPICallResponse (some resp) with
      | (respContent, err) =>
        if err ≠ none then .ret "" err
        else if resp.StatusCode ≠ 200 then .ret "" err
        else .ret respContent none

/-! ## Provider resolution as the specification words it -/

/-- The ids that count for an application target: those of the providers that
are not nil and of entity type container pod, providers in order and ids in
order. -/
def candidatePodIds : List (Option ProviderInfo) → List String
  | [] => []
  | none :: rest => candidatePodIds rest
  | some providerInfo :: rest =>
    if providerInfo.EntityType = .CONTAINER_POD then providerInfo.Ids ++ candidatePodIds rest
    else candidatePodIds rest

/-- The pod of the cluster with the given UID (the first one listed). -/
def podWithUID (pods : List Pod) (uid : String) : Option Pod :=
  pods.find? (fun pod => pod.UID = uid)

/-- The pod for the first candidate id that is the UID of a pod of the cluster. -/
def firstResolvablePod (pods : List Pod) (providers : List (Option ProviderInfo)) :
    Option Pod :=
  (candidatePodIds providers).findSome? (podWithUID pods)

/-! ## More example inputs -/

/-- An unbind request on a virtual application whose current entity is an
application buying from the pod `exPod`. -/
def exVirtualAppItem : ActionItemDTO :=
  { ActionType := .MOVE
    Uuid := some "action-2"
    TargetSE := some { EntityType := .VIRTUAL_APPLICATION, Id := "vapp-1", CommoditiesBought := [] }
    CurrentSE := some
      { EntityType := .APPLICATION, Id := "app-1"
        CommoditiesBought := [{ ProviderType := .CONTAINER_POD, ProviderId := "pod-uid-1" }] }
    Providers := [] }

/-- Controller `rc-fe` with 5 replicas, selecting `app=web, tier=fe`. -/
def exFrontRC : ReplicationController :=
  { Namespace := "ns", Name := "rc-fe", Selector := [("app", "web"), ("tier", "fe")]
    Replicas := some 5 }

/-- A pod owned by `rc-fe`; its labels also satisfy the selector of `rc-1`. -/
def exFrontPod : Pod :=
  { UID := "pod-uid-5", Namespace := "ns", Name := "fe-1"
    Labels := some [("app", "web"), ("tier", "fe")]
    ParentRef := some
      { UID := "rc-uid-fe", Namespace := "ns", Name := "rc-fe"
        Kind := TypeReplicationController } }

/-- A scaler on a cluster holding `rc-1` (2 replicas) and `rc-fe` (5 replicas), in
that order, and the pod of `rc-fe`; nothing fails, the new pod is delivered. -/
def exTwoControllers : HorizontalScaler :=
  { kubeClient :=
      { cluster := { pods := [exFrontPod], rcs := [exRC, exFrontRC], deployments := [] }
        faults := Faults.none }
    broker :=
      { subscribers := []
        delivery := .delivered { exFrontPod with UID := "pod-uid-6", Name := "fe-2" } }
    scheduler := { Schedule := fun _ => none } }

/-- An HTTP layer that accepts every request and answers with the given response. -/
def exHttp (resp : Response) : HttpLayer :=
  { NewRequest := fun _ _ => true, Do := fun _ _ _ _ => some resp }

/-- A client record. -/
def exVmtApi : VmtApi :=
  { vmtUrl := "https://turbo", extConfig := [("Username", "u"), ("Password", "p")] }

/-! ## Arithmetic on `int32` -/

theorem wrap32_succ (n : Int) (h : isInt32 n) (hne : n ≠ maxInt32) : wrap32 (n + 1) = n + 1 := by
  unfold isInt32 minInt32 maxInt32 at *
  unfold wrap32
  omega

theorem wrap32_succ_max : wrap32 (maxInt32 + 1) < 0 := by decide

theorem wrap32_pred (n : Int) (h : isInt32 n) (hne : n ≠ minInt32) : wrap32 (n + -1) = n - 1 := by
  unfold isInt32 minInt32 maxInt32 at *
  unfold wrap32
  omega

theorem wrap32_isInt32 (x : Int) : isInt32 (wrap32 x) := by
  unfold isInt32 minInt32 maxInt32 wrap32
  omega

theorem build_inv (h : HorizontalScaler) (item : ActionItemDTO) (a : TurboAction)
    (hb : buildPendingScalingTurboAction h item = .ret (some a) none) :
    ∃ pod ref diff ty spec uuid,
      (GetEntityType item.TargetSE = .CONTAINER_POD ∨ GetEntityType item.TargetSE = .APPLICATION) ∧
      getProviderPod h item = .ret (some pod) none ∧
      pod.ParentRef = some ref ∧
      diffAndActionType item.ActionType = some (diff, ty) ∧
      switchParentKind h pod ref diff = .ret (some spec) none ∧
      0 ≤ spec.NewReplicas ∧
      item.Uuid = some uuid ∧
      a = NewTurboAction ref.Namespace uuid ty ⟨pod.UID, pod.Namespace, pod.Name, TypePod⟩ spec
        ⟨ref.UID, ref.Namespace, ref.Name, ref.Kind⟩ := by
  unfold buildPendingScalingTurboAction at hb
  simp only at hb
  split at hb
  · simp at hb
  · rename_i hty
    split at hb
    · simp at hb
    · simp at hb
    · simp at hb
    · rename_i pod hpod
      split at hb
      · simp at hb
      · rename_i ref href
        split at hb
        · simp at hb
        · rename_i diff ty hdiff
          split at hb
          · simp at hb
          · simp at hb
          · simp at hb
          · rename_i spec hspec
            split at hb
            · simp at hb
            · rename_i hneg
              split at hb
              · simp at hb
              · rename_i uuid huuid
                refine ⟨pod, ref, diff, ty, spec, uuid, ?_, hpod, href, hdiff, hspec, ?_, huuid, ?_⟩
                · by_contra hc
                  push_neg at hc
                  exact hty ⟨hc.1, hc.2⟩
                · omega
                · simp at hb
                  exact hb.symm

/-! ## Structure of the runs -/

theorem switch_inv (h : HorizontalScaler) (pod : Pod) (ref : ObjectReference) (diff : Int)
    (spec : ScaleSpec) (hs : switchParentKind h pod ref diff = .ret (some spec) none) :
    ∃ N, spec = ⟨N, wrap32 (N + diff)⟩ ∧
      ((ref.Kind = TypeReplicationController ∧
          ∃ rc, FindReplicationControllerForPod h.kubeClient pod = .ret (some rc) none ∧
            rc.Replicas = some N) ∨
       (ref.Kind ≠ TypeReplicationController ∧ ref.Kind = TypeReplicaSet ∧
          ∃ d, FindDeploymentForPod h.kubeClient pod = .ret (some d) none ∧
            d.Replicas = some N)) := by
  unfold switchParentKind at hs
  split at hs
  · rename_i hk
    split at hs
    · simp at hs
    · simp at hs
    · rename_i rc hrc
      split at hs
      · simp at hs
      · rename_i N hN
        simp at hs
        exact ⟨N, hs.symm, Or.inl ⟨hk, rc, hrc, hN⟩⟩
    · simp at hs
  · rename_i hk
    split at hs
    · rename_i hk2
      split at hs
      · simp at hs
      · simp at hs
      · rename_i d hd
        split at hs
        · simp at hs
        · rename_i N hN
          simp at hs
          exact ⟨N, hs.symm, Or.inr ⟨hk, hk2, d, hd, hN⟩⟩
      · simp at hs
    · simp at hs

theorem updateReplica_trace (kc : KubeClient) (t : TargetObject) (p : ParentObjectRef)
    (spec : ScaleSpec) :
    (updateReplica kc t p (.scale spec)).trace = [] ∨
    (∃ rc, (updateReplica kc t p (.scale spec)).trace = [.updateRC rc] ∧
      rc.Replicas = some spec.NewReplicas) ∨
    (∃ d, (updateReplica kc t p (.scale spec)).trace = [.updateDeployment d] ∧
      d.Replicas = some spec.NewReplicas) := by
  unfold updateReplica
  simp only
  split
  · split
    · simp
    · unfold updateReplicationControllerReplicas
      simp only
      split <;> simp
    · simp
  · split
    · split
      · simp
      · split
        · simp
        · unfold updateDeploymentReplicas
          split
          · simp
          · simp only
            split <;> simp
        · simp
      · simp
    · simp

theorem updateReplica_writes (kc : KubeClient) (t : TargetObject) (p : ParentObjectRef)
    (spec : ScaleSpec) (e : Event) (he : e ∈ (updateReplica kc t p (.scale spec)).trace)
    : e.isUpdate = true ∧ Event.replicas e = some spec.NewReplicas := by
  rcases updateReplica_trace kc t p spec with h0 | ⟨rc, h1, h2⟩ | ⟨d, h1, h2⟩
  · rw [h0] at he; simp at he
  · rw [h1] at he; simp at he; subst he; exact ⟨rfl, h2⟩
  · rw [h1] at he; simp at he; subst he; exact ⟨rfl, h2⟩

theorem horizontalScale_trace (h : HorizontalScaler) (a : TurboAction) :
    (horizontalScale h a).trace = [] ∨
    ∃ tail, (horizontalScale h a).trace =
        Event.subscribe a.Content.ParentObjectRef.ParentObjectUID a.UID ::
          ((updateReplica h.kubeClient a.Content.TargetObject a.Content.ParentObjectRef
            a.Content.ActionSpec).trace ++ tail) ∧
      ∀ e ∈ tail, e.isUpdate = false := by
  unfold horizontalScale
  simp only
  split
  · simp
  · split
    · simp
    · split
      · simp
      · right
        split
        · exact ⟨[], by simp⟩
        · exact ⟨[], by simp⟩
        · split
          · exact ⟨[], by simp⟩
          · split
            · rename_i pod _
              split
              · exact ⟨[.waitPod a.Content.ParentObjectRef.ParentObjectUID, .leave a.Content.ParentObjectRef.ParentObjectUID a.UID, .schedule pod], by simp, by simp [Event.isUpdate]⟩
              · exact ⟨[.waitPod a.Content.ParentObjectRef.ParentObjectUID, .leave a.Content.ParentObjectRef.ParentObjectUID a.UID, .schedule pod], by simp, by simp [Event.isUpdate]⟩
            · exact ⟨[.waitPod a.Content.ParentObjectRef.ParentObjectUID], by simp, by simp [Event.isUpdate]⟩
            · exact ⟨[.waitPod a.Content.ParentObjectRef.ParentObjectUID], by simp, by simp [Event.isUpdate]⟩

theorem updateReplica_ok_trace (kc : KubeClient) (t : TargetObject) (p : ParentObjectRef)
    (spec : ScaleSpec) (hok : (updateReplica kc t p (.scale spec)).err = .ret none) :
    (∃ rc, (updateReplica kc t p (.scale spec)).trace = [.updateRC rc] ∧
      rc.Replicas = some spec.NewReplicas ∧
      (updateReplica kc t p (.scale spec)).kubeClient.cluster =
        storeReplicationController kc.cluster rc) ∨
    (∃ d, (updateReplica kc t p (.scale spec)).trace = [.updateDeployment d] ∧
      d.Replicas = some spec.NewReplicas ∧
      (updateReplica kc t p (.scale spec)).kubeClient.cluster =
        storeDeployment kc.cluster d) := by
  unfold updateReplica at hok ⊢
  simp only at hok ⊢
  split
  · rename_i hk
    rw [if_pos hk] at hok
    split
    · rename_i hg; rw [hg] at hok; simp at hok
    · rename_i rc hg
      rw [hg] at hok
      simp only at hok
      unfold updateReplicationControllerReplicas at hok ⊢
      simp only at hok ⊢
      split
      · rename_i hf; rw [if_pos hf] at hok; simp at hok
      · left; exact ⟨_, rfl, rfl, rfl⟩
    · rename_i hg1 hg2
      split at hok
      · simp at hok
      · rename_i rc hg; exact absurd hg (hg2 rc)
      · simp at hok
  · rename_i hk
    rw [if_neg hk] at hok
    split
    · rename_i hk2
      rw [if_pos hk2] at hok
      split
      · rename_i hg; rw [hg] at hok; simp at hok
      · rename_i pod hg
        rw [hg] at hok
        simp only at hok
        split
        · rename_i hf; rw [hf] at hok; simp at hok
        · rename_i dep hf
          rw [hf] at hok
          simp only at hok
          unfold updateDeploymentReplicas at hok ⊢
          cases dep with
          | none => simp at hok
          | some d =>
            simp only at hok ⊢
            split
            · rename_i hfl; rw [if_pos hfl] at hok; simp at hok
            · right; exact ⟨_, rfl, rfl, rfl⟩
        · rename_i hf; rw [hf] at hok; simp at hok
      · rename_i hg1 hg2
        split at hok
        · simp at hok
        · rename_i pod hg; exact absurd hg (hg2 pod)
        · simp at hok
    · rename_i hk2
      rw [if_neg hk2] at hok
      simp at hok

theorem updateReplica_trace_updates (kc : KubeClient) (t : TargetObject)
    (p : ParentObjectRef) (spec : ScaleSpec) :
    (updateReplica kc t p (.scale spec)).trace.filter Event.isUpdate =
      (updateReplica kc t p (.scale spec)).trace := by
  rcases updateReplica_trace kc t p spec with h0 | ⟨rc, h1, _⟩ | ⟨d, h1, _⟩
  · rw [h0]; rfl
  · rw [h1]; rfl
  · rw [h1]; rfl

theorem horizontalScale_trace_reached (h : HorizontalScaler) (a : TurboAction)
    (spec : ScaleSpec) (hspec : a.Content.ActionSpec = .scale spec)
    (hnn : 0 ≤ spec.NewReplicas) (hkey : a.Content.ParentObjectRef.ParentObjectUID ≠ "") :
    (horizontalScale h a).trace.filter Event.isUpdate =
      (updateReplica h.kubeClient a.Content.TargetObject a.Content.ParentObjectRef
        (.scale spec)).trace := by
  have hneg : ¬ spec.NewReplicas < 0 := by omega
  have hupd := updateReplica_trace_updates h.kubeClient a.Content.TargetObject
    a.Content.ParentObjectRef spec
  unfold horizontalScale
  simp only [hspec, if_neg hneg, if_neg hkey]
  split
  · simpa [List.filter_cons, Event.isUpdate] using hupd
  · simpa [List.filter_cons, Event.isUpdate] using hupd
  · split
    · simpa [List.filter_cons, Event.isUpdate] using hupd
    · split
      · split <;>
          simpa [List.filter_cons, List.filter_append, Event.isUpdate] using hupd
      · simpa [List.filter_cons, List.filter_append, Event.isUpdate] using hupd
      · simpa [List.filter_cons, List.filter_append, Event.isUpdate] using hupd

theorem updateReplica_rc_call (kc : KubeClient) (t : TargetObject) (p : ParentObjectRef)
    (spec : ScaleSpec) (rc : ReplicationController)
    (hk : p.ParentObjectType = TypeReplicationController)
    (hget : getReplicationController kc p.ParentObjectNamespace p.ParentObjectName =
      .ret (some rc) none) :
    (updateReplica kc t p (.scale spec)).trace =
      [.updateRC { rc with Replicas := some spec.NewReplicas }] := by
  unfold updateReplica
  simp only [hk, if_true, hget]
  unfold updateReplicationControllerReplicas
  simp only
  split <;> rfl

theorem updateReplica_deployment_call (kc : KubeClient) (t : TargetObject)
    (p : ParentObjectRef) (spec : ScaleSpec) (pod : Pod) (d : Deployment)
    (hk : p.ParentObjectType ≠ TypeReplicationController)
    (hk2 : p.ParentObjectType = TypeReplicaSet)
    (hget : getPod kc t.TargetObjectNamespace t.TargetObjectName = .ret (some pod) none)
    (hfind : FindDeploymentForPod kc pod = .ret (some d) none) :
    (updateReplica kc t p (.scale spec)).trace =
      [.updateDeployment { d with Replicas := some spec.NewReplicas }] := by
  unfold updateReplica
  simp only [if_neg hk, if_pos hk2, hget, hfind]
  unfold updateDeploymentReplicas
  simp only
  split <;> rfl

/-! ## Scale spec arithmetic (C1, C2) -/

theorem execute_trace_of_build (h : HorizontalScaler) (item : ActionItemDTO) (a : TurboAction)
    (hb : buildPendingScalingTurboAction h item = .ret (some a) none) :
    (Execute h (some item)).trace = (horizontalScale h a).trace ∧
    (Execute h (some item)).result = (horizontalScale h a).result ∧
    (Execute h (some item)).built = some (horizontalScale h a).action ∧
    (Execute h (some item)).scaler = (horizontalScale h a).scaler := by
  simp [Execute, hb]

theorem horizontalScale_writes (h : HorizontalScaler) (a : TurboAction) (spec : ScaleSpec)
    (hs : a.Content.ActionSpec = .scale spec) (e : Event)
    (he : e ∈ (horizontalScale h a).trace) (hu : e.isUpdate = true) :
    e.replicas = some spec.NewReplicas := by
  rcases horizontalScale_trace h a with h0 | ⟨tail, ht, hnot⟩
  · rw [h0] at he; simp at he
  · rw [ht, hs] at he
    simp only [List.mem_cons, List.mem_append] at he
    rcases he with he | he | he
    · subst he; simp [Event.isUpdate] at hu
    · exact (updateReplica_writes _ _ _ _ e he).2
    · rw [hnot e he] at hu; simp at hu

/-- C1 (amended): when `buildPendingScalingTurboAction` succeeds, the owning
controller that was read has some replica count `N`, the built scale spec has
`OriginalReplicas = N`, the action type is PROVISION or MOVE, and for an `int32`
`N` the new count is exactly `N + 1` for PROVISION and exactly `N - 1` for MOVE
unless `N` is the smallest `int32`, where the subtraction wraps to the largest
one. `updateReplica` passes exactly that new count to the update call: once it
has fetched the controller (by name for a replication controller, through the
pod for a replica set) it issues one update call, with the fetched object in
which only the replica count is replaced by the new count; when it returns no
error it has issued exactly that one call and the cluster stores its argument;
no call it issues carries another count; and the update calls of `Execute` are
exactly those of `updateReplica` on the built action. -/
theorem build_scaleSpec_replicas (h : HorizontalScaler) (item : ActionItemDTO) (a : TurboAction)
    (hb : buildPendingScalingTurboAction h item = .ret (some a) none) :
    ∃ pod ref N N',
      getProviderPod h item = .ret (some pod) none ∧ pod.ParentRef = some ref ∧
      ((ref.Kind = TypeReplicationController ∧
          ∃ rc, FindReplicationControllerForPod h.kubeClient pod = .ret (some rc) none ∧
            rc.Replicas = some N) ∨
       (ref.Kind ≠ TypeReplicationController ∧ ref.Kind = TypeReplicaSet ∧
          ∃ d, FindDeploymentForPod h.kubeClient pod = .ret (some d) none ∧
            d.Replicas = some N)) ∧
      a.Content.ActionSpec = .scale ⟨N, N'⟩ ∧
      (item.ActionType = .PROVISION ∨ item.ActionType = .MOVE) ∧
      (item.ActionType = .PROVISION → isInt32 N → N' = N + 1) ∧
      (item.ActionType = .MOVE → isInt32 N → N ≠ minInt32 → N' = N - 1) ∧
      (item.ActionType = .MOVE → N = minInt32 → N' = maxInt32) ∧
      (∀ e ∈ (Execute h (some item)).trace, e.isUpdate = true → e.replicas = some N') ∧
      (∀ kubeClient target parent,
        ∀ e ∈ (updateReplica kubeClient target parent a.Content.ActionSpec).trace,
          e.isUpdate = true ∧ e.replicas = some N') ∧
      (∀ kubeClient target parent rc,
        parent.ParentObjectType = TypeReplicationController →
        getReplicationController kubeClient parent.ParentObjectNamespace
          parent.ParentObjectName = .ret (some rc) none →
        (updateReplica kubeClient target parent a.Content.ActionSpec).trace =
          [.updateRC { rc with Replicas := some N' }]) ∧
      (∀ kubeClient target parent providerPod deployment,
        parent.ParentObjectType ≠ TypeReplicationController →
        parent.ParentObjectType = TypeReplicaSet →
        getPod kubeClient target.TargetObjectNamespace target.TargetObjectName =
          .ret (some providerPod) none →
        FindDeploymentForPod kubeClient providerPod = .ret (some deployment) none →
        (updateReplica kubeClient target parent a.Content.ActionSpec).trace =
          [.updateDeployment { deployment with Replicas := some N' }]) ∧
      (∀ kubeClient target parent,
        (updateReplica kubeClient target parent a.Content.ActionSpec).err = .ret none →
        (∃ rc, (updateReplica kubeClient target parent a.Content.ActionSpec).trace =
            [.updateRC rc] ∧ rc.Replicas = some N' ∧
          (updateReplica kubeClient target parent a.Content.ActionSpec).kubeClient.cluster =
            storeReplicationController kubeClient.cluster rc) ∨
        (∃ d, (updateReplica kubeClient target parent a.Content.ActionSpec).trace =
            [.updateDeployment d] ∧ d.Replicas = some N' ∧
          (updateReplica kubeClient target parent a.Content.ActionSpec).kubeClient.cluster =
            storeDeployment kubeClient.cluster d)) ∧
      (a.Content.ParentObjectRef.ParentObjectUID ≠ "" →
        (Execute h (some item)).trace.filter Event.isUpdate =
          (updateReplica h.kubeClient a.Content.TargetObject a.Content.ParentObjectRef
            a.Content.ActionSpec).trace) := by
  obtain ⟨pod, ref, diff, ty, spec, uuid, _, hpod, href, hdiff, hspec, hnn, _, ha⟩ :=
    build_inv h item a hb
  obtain ⟨N, hN, hfind⟩ := switch_inv h pod ref diff spec hspec
  have hcontent : a.Content.ActionSpec = .scale ⟨N, wrap32 (N + diff)⟩ := by
    rw [ha, hN]; rfl
  have hnn' : 0 ≤ (ScaleSpec.mk N (wrap32 (N + diff))).NewReplicas := by
    rw [← hN]; exact hnn
  refine ⟨pod, ref, N, wrap32 (N + diff), hpod, href, hfind, hcontent,
    ?_, ?_, ?_, ?_, ?_, ?_, ?_, ?_, ?_, ?_⟩
  · cases hty : item.ActionType <;> simp [hty, diffAndActionType] at hdiff ⊢
  · intro hty hint
    rw [hty] at hdiff
    simp [diffAndActionType] at hdiff
    have hd : diff = 1 := hdiff.1.symm
    subst hd
    by_cases hmax : N = maxInt32
    · exfalso
      rw [hN, hmax] at hnn
      have := wrap32_succ_max
      simp only at hnn
      omega
    · exact wrap32_succ N hint hmax
  · intro hty hint hmin
    rw [hty] at hdiff
    simp [diffAndActionType] at hdiff
    have hd : diff = -1 := hdiff.1.symm
    subst hd
    exact wrap32_pred N hint hmin
  · intro hty hmin
    rw [hty] at hdiff
    simp [diffAndActionType] at hdiff
    have hd : diff = -1 := hdiff.1.symm
    subst hd
    subst hmin
    decide
  · intro e he hu
    rw [(execute_trace_of_build h item a hb).1] at he
    exact horizontalScale_writes h a _ hcontent e he hu
  · intro kc t p e he
    rw [hcontent] at he
    exact updateReplica_writes kc t p _ e he
  · intro kc t p rc hk hget
    rw [hcontent]
    exact updateReplica_rc_call kc t p _ rc hk hget
  · intro kc t p pod' d hk hk2 hget hfind'
    rw [hcontent]
    exact updateReplica_deployment_call kc t p _ pod' d hk hk2 hget hfind'
  · intro kc t p hok
    rw [hcontent] at hok ⊢
    exact updateReplica_ok_trace kc t p _ hok
  · intro hkey
    rw [(execute_trace_of_build h item a hb).1, hcontent]
    exact horizontalScale_trace_reached h a _ hcontent hnn' hkey

/-- Witness for C1: a provision action on `rc-1` with 2 replicas. The run issues
the update call for `rc-1` with 3 replicas, `updateReplica` returns no error,
and the cluster then stores `rc-1` with 3 replicas. -/
theorem build_scaleSpec_replicas_witness :
    buildPendingScalingTurboAction (exScalerWith 2) (exItem .PROVISION) =
      .ret (some (exAction .ActionProvision ⟨2, 3⟩)) none ∧
    (updateReplica (exScalerWith 2).kubeClient
      (exAction .ActionProvision ⟨2, 3⟩).Content.TargetObject
      (exAction .ActionProvision ⟨2, 3⟩).Content.ParentObjectRef
      (exAction .ActionProvision ⟨2, 3⟩).Content.ActionSpec).err = .ret none ∧
    (updateReplica (exScalerWith 2).kubeClient
      (exAction .ActionProvision ⟨2, 3⟩).Content.TargetObject
      (exAction .ActionProvision ⟨2, 3⟩).Content.ParentObjectRef
      (exAction .ActionProvision ⟨2, 3⟩).Content.ActionSpec).trace =
      [.updateRC { exRC with Replicas := some 3 }] ∧
    (Execute (exScalerWith 2) (some (exItem .PROVISION))).trace =
      [.subscribe "rc-uid-1" "action-1", .updateRC { exRC with Replicas := some 3 },
       .waitPod "rc-uid-1", .leave "rc-uid-1" "action-1", .schedule exNewPod] ∧
    (Execute (exScalerWith 2) (some (exItem .PROVISION))).scaler.kubeClient.cluster.rcs =
      [{ exRC with Replicas := some 3 }] ∧
    (exAction .ActionProvision ⟨2, 3⟩).Content.ParentObjectRef.ParentObjectUID ≠ "" ∧
    ∃ pod ref N N',
      getProviderPod (exScalerWith 2) (exItem .PROVISION) = .ret (some pod) none ∧ pod.ParentRef = some ref ∧
      ((ref.Kind = TypeReplicationController ∧
          ∃ rc, FindReplicationControllerForPod (exScalerWith 2).kubeClient pod = .ret (some rc) none ∧
            rc.Replicas = some N) ∨
       (ref.Kind ≠ TypeReplicationController ∧ ref.Kind = TypeReplicaSet ∧
          ∃ d, FindDeploymentForPod (exScalerWith 2).kubeClient pod = .ret (some d) none ∧
            d.Replicas = some N)) ∧
      (exAction .ActionProvision ⟨2, 3⟩).Content.ActionSpec = .scale ⟨N, N'⟩ ∧
      ((exItem .PROVISION).ActionType = .PROVISION ∨ (exItem .PROVISION).ActionType = .MOVE) ∧
      ((exItem .PROVISION).ActionType = .PROVISION → isInt32 N → N' = N + 1) ∧
      ((exItem .PROVISION).ActionType = .MOVE → isInt32 N → N ≠ minInt32 → N' = N - 1) ∧
      ((exItem .PROVISION).ActionType = .MOVE → N = minInt32 → N' = maxInt32) ∧
      (∀ e ∈ (Execute (exScalerWith 2) (some (exItem .PROVISION))).trace, e.isUpdate = true → e.replicas = some N') ∧
      (∀ kubeClient target parent,
        ∀ e ∈ (updateReplica kubeClient target parent (exAction .ActionProvision ⟨2, 3⟩).Content.ActionSpec).trace,
          e.isUpdate = true ∧ e.replicas = some N') ∧
      (∀ kubeClient target parent rc,
        parent.ParentObjectType = TypeReplicationController →
        getReplicationController kubeClient parent.ParentObjectNamespace
          parent.ParentObjectName = .ret (some rc) none →
        (updateReplica kubeClient target parent (exAction .ActionProvision ⟨2, 3⟩).Content.ActionSpec).trace =
          [.updateRC { rc with Replicas := some N' }]) ∧
      (∀ kubeClient target parent providerPod deployment,
        parent.ParentObjectType ≠ TypeReplicationController →
        parent.ParentObjectType = TypeReplicaSet →
        getPod kubeClient target.TargetObjectNamespace target.TargetObjectName =
          .ret (some providerPod) none →
        FindDeploymentForPod kubeClient providerPod = .ret (some deployment) none →
        (updateReplica kubeClient target parent (exAction .ActionProvision ⟨2, 3⟩).Content.ActionSpec).trace =
          [.updateDeployment { deployment with Replicas := some N' }]) ∧
      (∀ kubeClient target parent,
        (updateReplica kubeClient target parent (exAction .ActionProvision ⟨2, 3⟩).Content.ActionSpec).err = .ret none →
        (∃ rc, (updateReplica kubeClient target parent (exAction .ActionProvision ⟨2, 3⟩).Content.ActionSpec).trace =
            [.updateRC rc] ∧ rc.Replicas = some N' ∧
          (updateReplica kubeClient target parent (exAction .ActionProvision ⟨2, 3⟩).Content.ActionSpec).kubeClient.cluster =
            storeReplicationController kubeClient.cluster rc) ∨
        (∃ d, (updateReplica kubeClient target parent (exAction .ActionProvision ⟨2, 3⟩).Content.ActionSpec).trace =
            [.updateDeployment d] ∧ d.Replicas = some N' ∧
          (updateReplica kubeClient target parent (exAction .ActionProvision ⟨2, 3⟩).Content.ActionSpec).kubeClient.cluster =
            storeDeployment kubeClient.cluster d)) ∧
      ((exAction .ActionProvision ⟨2, 3⟩).Content.ParentObjectRef.ParentObjectUID ≠ "" →
        (Execute (exScalerWith 2) (some (exItem .PROVISION))).trace.filter Event.isUpdate =
          (updateReplica (exScalerWith 2).kubeClient (exAction .ActionProvision ⟨2, 3⟩).Content.TargetObject (exAction .ActionProvision ⟨2, 3⟩).Content.ParentObjectRef
            (exAction .ActionProvision ⟨2, 3⟩).Content.ActionSpec).trace) :=
  ⟨by decide, by decide, by decide, by decide, by decide, by decide,
   build_scaleSpec_replicas _ _ _ (by decide)⟩

/-- Counterexample to C1 as stated: for a controller whose replica count is the
smallest `int32`, a MOVE action builds successfully and the new count is the
largest `int32`, not `N - 1`; that wrapped value is what the update call carries. -/
theorem build_scaleSpec_wraps_at_minInt32 :
    isInt32 minInt32 ∧
    FindReplicationControllerForPod (exScalerWith minInt32).kubeClient exPod =
      .ret (some { exRC with Replicas := some minInt32 }) none ∧
    buildPendingScalingTurboAction (exScalerWith minInt32) (exItem .MOVE) =
      .ret (some (exAction .ActionUnbind ⟨minInt32, 2147483647⟩)) none ∧
    (2147483647 : Int) ≠ minInt32 - 1 ∧
    (Execute (exScalerWith minInt32) (some (exItem .MOVE))).trace =
      [.subscribe "rc-uid-1" "action-1",
       .updateRC { exRC with Replicas := some 2147483647 }] := by
  decide

theorem switch_of_owner (h : HorizontalScaler) (pod : Pod) (ref : ObjectReference) (diff N : Int)
    (hown : (ref.Kind = TypeReplicationController ∧
          ∃ rc, FindReplicationControllerForPod h.kubeClient pod = .ret (some rc) none ∧
            rc.Replicas = some N) ∨
       (ref.Kind ≠ TypeReplicationController ∧ ref.Kind = TypeReplicaSet ∧
          ∃ d, FindDeploymentForPod h.kubeClient pod = .ret (some d) none ∧
            d.Replicas = some N)) :
    switchParentKind h pod ref diff = .ret (some ⟨N, wrap32 (N + diff)⟩) none := by
  rcases hown with ⟨hk, rc, hrc, hN⟩ | ⟨hk, hk2, d, hd, hN⟩
  · simp [switchParentKind, hk, hrc, hN]
  · unfold switchParentKind
    rw [if_neg hk, if_pos hk2]
    simp [hd, hN]

theorem execute_of_build_fail (h : HorizontalScaler) (item : ActionItemDTO) (err : Error)
    (hb : buildPendingScalingTurboAction h item = .ret none (some err)) :
    (Execute h (some item)).result = .ret none (some err) ∧
    (Execute h (some item)).trace = [] ∧
    (Execute h (some item)).built = none ∧
    (Execute h (some item)).scaler.kubeClient = h.kubeClient ∧
    (Execute h (some item)).scaler.broker = h.broker := by
  simp [Execute, hb]

/-- C2: every action that `buildPendingScalingTurboAction` returns carries a scale
spec with `NewReplicas >= 0`; and whenever the new replica count computed for
the resolved controller (the `int32` value `N + diff`) is negative, `Execute`
returns a nil action and an error, issues no call at all, and leaves cluster and
broker as they were; `horizontalScale` itself rejects any action whose scale
spec has a negative `NewReplicas` before it issues a call. -/
theorem build_newReplicas_nonneg (h : HorizontalScaler) (item : ActionItemDTO) :
    (∀ a, buildPendingScalingTurboAction h item = .ret (some a) none →
      ∃ spec, a.Content.ActionSpec = .scale spec ∧ 0 ≤ spec.NewReplicas) ∧
    (∀ pod ref diff ty N,
      getProviderPod h item = .ret (some pod) none → pod.ParentRef = some ref →
      diffAndActionType item.ActionType = some (diff, ty) →
      ((ref.Kind = TypeReplicationController ∧
          ∃ rc, FindReplicationControllerForPod h.kubeClient pod = .ret (some rc) none ∧
            rc.Replicas = some N) ∨
       (ref.Kind ≠ TypeReplicationController ∧ ref.Kind = TypeReplicaSet ∧
          ∃ d, FindDeploymentForPod h.kubeClient pod = .ret (some d) none ∧
            d.Replicas = some N)) →
      wrap32 (N + diff) < 0 →
      ∃ err, (Execute h (some item)).result = .ret none (some err) ∧
        (Execute h (some item)).trace = [] ∧
        (Execute h (some item)).built = none ∧
        (Execute h (some item)).scaler.kubeClient = h.kubeClient ∧
        (Execute h (some item)).scaler.broker = h.broker) ∧
    (∀ a spec, a.Content.ActionSpec = .scale spec → spec.NewReplicas < 0 →
      (∃ err, (horizontalScale h a).result = .ret none (some err)) ∧
      (horizontalScale h a).trace = [] ∧
      (horizontalScale h a).scaler.kubeClient = h.kubeClient ∧
      (horizontalScale h a).scaler.broker = h.broker) := by
  refine ⟨?_, ?_, ?_⟩
  · intro a hb
    obtain ⟨pod, ref, diff, ty, spec, uuid, _, _, _, _, _, hnn, _, ha⟩ := build_inv h item a hb
    exact ⟨spec, by rw [ha]; rfl, hnn⟩
  rotate_left
  · intro a spec hspec hneg
    unfold horizontalScale
    simp [hspec, if_pos hneg]
  · intro pod ref diff ty N hpod href hdiff hown hneg
    have hsw := switch_of_owner h pod ref diff N hown
    by_cases hgate : GetEntityType item.TargetSE ≠ .CONTAINER_POD ∧
        GetEntityType item.TargetSE ≠ .APPLICATION
    · exact ⟨_, execute_of_build_fail h item _
        (by simp only [buildPendingScalingTurboAction]; rw [if_pos hgate])⟩
    · refine ⟨.msg "Invalid new replica %d for %s/%s", execute_of_build_fail h item _ ?_⟩
      simp only [buildPendingScalingTurboAction]
      rw [if_neg hgate]
      simp only [hpod, href, hdiff, hsw]
      rw [if_pos hneg]

/-- Witness for C2: a provision on 2 replicas is built with 3; an unbind on a
controller with 0 replicas is rejected. -/
theorem build_newReplicas_nonneg_witness :
    (buildPendingScalingTurboAction (exScalerWith 2) (exItem .PROVISION) =
        .ret (some (exAction .ActionProvision ⟨2, 3⟩)) none ∧
      ∃ spec, (exAction .ActionProvision ⟨2, 3⟩).Content.ActionSpec = .scale spec ∧
        0 ≤ spec.NewReplicas) ∧
    (getProviderPod (exScalerWith 0) (exItem .MOVE) = .ret (some exPod) none ∧
      wrap32 (0 + -1) < 0 ∧
      ∃ err, (Execute (exScalerWith 0) (some (exItem .MOVE))).result = .ret none (some err) ∧
        (Execute (exScalerWith 0) (some (exItem .MOVE))).trace = [] ∧
        (Execute (exScalerWith 0) (some (exItem .MOVE))).built = none ∧
        (Execute (exScalerWith 0) (some (exItem .MOVE))).scaler.kubeClient =
          (exScalerWith 0).kubeClient ∧
        (Execute (exScalerWith 0) (some (exItem .MOVE))).scaler.broker =
          (exScalerWith 0).broker) ∧
    ((exAction .ActionUnbind ⟨0, -1⟩).Content.ActionSpec = .scale ⟨0, -1⟩ ∧
      (horizontalScale (exScalerWith 0) (exAction .ActionUnbind ⟨0, -1⟩)).trace = []) :=
  ⟨⟨by decide,
      (build_newReplicas_nonneg (exScalerWith 2) (exItem .PROVISION)).1 _ (by decide)⟩,
    ⟨by decide, by decide,
      (build_newReplicas_nonneg (exScalerWith 0) (exItem .MOVE)).2.1 exPod
        ⟨"rc-uid-1", "ns", "rc-1", TypeReplicationController⟩ (-1) .ActionUnbind 0
        (by decide) (by decide) (by decide)
        (Or.inl ⟨by decide, { exRC with Replicas := some 0 }, by decide, by decide⟩)
        (by decide)⟩,
    by decide,
    ((build_newReplicas_nonneg (exScalerWith 0) (exItem .MOVE)).2.2
      (exAction .ActionUnbind ⟨0, -1⟩) ⟨0, -1⟩ (by decide) (by decide)).2.1⟩

/-! ## Label matching (C3, C4) -/

theorem selectorLoop_iff (labels sel : StringMap) :
    selectorLoop labels sel = true ↔ selectorSubsetNonEmpty sel labels := by
  induction sel with
  | nil => simp [selectorLoop, selectorSubsetNonEmpty]
  | cons kv rest ih =>
    obtain ⟨key, val⟩ := kv
    unfold selectorSubsetNonEmpty at *
    simp only [selectorLoop, List.mem_cons, forall_eq_or_imp]
    rw [← ih]
    unfold StringMap.index
    cases hl : List.lookup key labels with
    | none => simp
    | some v =>
      simp only [Option.getD_some]
      by_cases h1 : v = ""
      · subst h1
        simp
        intro h h2; exact absurd h.symm h2
      · by_cases h2 : v = val
        · subst h2; simp [h1]
        · simp [h1, h2]

theorem findRC_spec (labels : StringMap) (rcList : List ReplicationController) :
    (∀ rc, findRCBasedOnPodLabel rcList labels = .ret (some rc) none ↔
      ∃ pre post, rcList = pre ++ rc :: post ∧ selectorSubsetNonEmpty rc.Selector labels ∧
        ∀ r ∈ pre, ¬ selectorSubsetNonEmpty r.Selector labels) ∧
    ((∃ err, findRCBasedOnPodLabel rcList labels = .ret none (some err)) ↔
      ∀ r ∈ rcList, ¬ selectorSubsetNonEmpty r.Selector labels) := by
  induction rcList with
  | nil =>
    constructor
    · intro rc
      simp [findRCBasedOnPodLabel]
    · simp [findRCBasedOnPodLabel]
  | cons hd tl ih =>
    unfold findRCBasedOnPodLabel
    by_cases hm : selectorLoop labels hd.Selector = true
    · have hm' := (selectorLoop_iff labels hd.Selector).1 hm
      rw [if_pos hm]
      constructor
      · intro rc
        constructor
        · intro h
          simp at h
          subst h
          exact ⟨[], tl, rfl, hm', by simp⟩
        · rintro ⟨pre, post, hsplit, _, hpre⟩
          cases pre with
          | nil =>
            simp at hsplit
            rw [hsplit.1]
          | cons p ps =>
            simp at hsplit
            exact absurd hm' (by rw [hsplit.1]; exact hpre p (by simp))
      · constructor
        · rintro ⟨err, h⟩
          simp at h
        · intro h
          exact absurd hm' (h hd (by simp))
    · have hm' : ¬ selectorSubsetNonEmpty hd.Selector labels :=
        fun h => hm ((selectorLoop_iff labels hd.Selector).2 h)
      rw [if_neg hm]
      constructor
      · intro rc
        rw [ih.1 rc]
        constructor
        · rintro ⟨pre, post, hsplit, hmatch, hpre⟩
          refine ⟨hd :: pre, post, by rw [hsplit]; rfl, hmatch, ?_⟩
          intro r hr
          rcases List.mem_cons.1 hr with h | h
          · rw [h]; exact hm'
          · exact hpre r h
        · rintro ⟨pre, post, hsplit, hmatch, hpre⟩
          cases pre with
          | nil =>
            simp at hsplit
            exact absurd (hsplit.1 ▸ hmatch) hm'
          | cons p ps =>
            simp at hsplit
            exact ⟨ps, post, hsplit.2, hmatch, fun r hr => hpre r (by simp [hr])⟩
      · rw [ih.2]
        constructor
        · intro h r hr
          rcases List.mem_cons.1 hr with h1 | h1
          · rw [h1]; exact hm'
          · exact h r h1
        · intro h r hr
          exact h r (by simp [hr])

theorem findDeployment_spec (labels : StringMap) (dList : List Deployment)
    (hsel : ∀ d ∈ dList, d.Selector ≠ none) :
    (∀ d, findDeploymentBasedOnPodLabel dList labels = .ret (some d) none ↔
      ∃ pre post, dList = pre ++ d :: post ∧
        (∃ sel, d.Selector = some sel ∧ selectorSubsetNonEmpty sel labels) ∧
        ∀ r ∈ pre, ¬ ∃ sel, r.Selector = some sel ∧ selectorSubsetNonEmpty sel labels) ∧
    ((∃ err, findDeploymentBasedOnPodLabel dList labels = .ret none (some err)) ↔
      ∀ r ∈ dList, ¬ ∃ sel, r.Selector = some sel ∧ selectorSubsetNonEmpty sel labels) := by
  induction dList with
  | nil =>
    constructor
    · intro d
      simp [findDeploymentBasedOnPodLabel]
    · simp [findDeploymentBasedOnPodLabel]
  | cons hd tl ih =>
    have ih := ih (fun d hd' => hsel d (by simp [hd']))
    unfold findDeploymentBasedOnPodLabel
    cases hs : hd.Selector with
    | none => exact absurd hs (hsel hd (by simp))
    | some sel =>
      simp only
      by_cases hm : selectorLoop labels sel = true
      · have hm' : ∃ s, hd.Selector = some s ∧ selectorSubsetNonEmpty s labels :=
          ⟨sel, hs, (selectorLoop_iff labels sel).1 hm⟩
        rw [if_pos hm]
        constructor
        · intro d
          constructor
          · intro h
            simp at h
            subst h
            exact ⟨[], tl, rfl, hm', by simp⟩
          · rintro ⟨pre, post, hsplit, _, hpre⟩
            cases pre with
            | nil =>
              simp at hsplit
              rw [hsplit.1]
            | cons p ps =>
              simp at hsplit
              exact absurd hm' (by rw [hsplit.1]; exact hpre p (by simp))
        · constructor
          · rintro ⟨err, h⟩
            simp at h
          · intro h
            exact absurd hm' (h hd (by simp))
      · have hm' : ¬ ∃ s, hd.Selector = some s ∧ selectorSubsetNonEmpty s labels := by
          rintro ⟨s, hs', h⟩
          rw [hs] at hs'
          cases hs'
          exact hm ((selectorLoop_iff labels sel).2 h)
        rw [if_neg hm]
        constructor
        · intro d
          rw [ih.1 d]
          constructor
          · rintro ⟨pre, post, hsplit, hmatch, hpre⟩
            refine ⟨hd :: pre, post, by rw [hsplit]; rfl, hmatch, ?_⟩
            intro r hr
            rcases List.mem_cons.1 hr with h | h
            · rw [h]; exact hm'
            · exact hpre r h
          · rintro ⟨pre, post, hsplit, hmatch, hpre⟩
            cases pre with
            | nil =>
              simp at hsplit
              exact absurd (hsplit.1 ▸ hmatch) hm'
            | cons p ps =>
              simp at hsplit
              exact ⟨ps, post, hsplit.2, hmatch, fun r hr => hpre r (by simp [hr])⟩
        · rw [ih.2]
          constructor
          · intro h r hr
            rcases List.mem_cons.1 hr with h1 | h1
            · rw [h1]; exact hm'
            · exact h r h1
          · intro h r hr
            exact h r (by simp [hr])

/-- C3 (amended): `findRCBasedOnPodLabel` returns a controller exactly when it is
the first one in list order whose every selector key is present in the pod's
labels with an equal and non-empty value, and it returns an error exactly when
no controller of the list has that property; the same holds for
`findDeploymentBasedOnPodLabel` on a list whose deployments all have a selector. -/
theorem findBasedOnPodLabel_first_match (labels : StringMap) :
    (∀ rcList : List ReplicationController,
      (∀ rc, findRCBasedOnPodLabel rcList labels = .ret (some rc) none ↔
        ∃ pre post, rcList = pre ++ rc :: post ∧ selectorSubsetNonEmpty rc.Selector labels ∧
          ∀ r ∈ pre, ¬ selectorSubsetNonEmpty r.Selector labels) ∧
      ((∃ err, findRCBasedOnPodLabel rcList labels = .ret none (some err)) ↔
        ∀ r ∈ rcList, ¬ selectorSubsetNonEmpty r.Selector labels)) ∧
    (∀ dList : List Deployment, (∀ d ∈ dList, d.Selector ≠ none) →
      (∀ d, findDeploymentBasedOnPodLabel dList labels = .ret (some d) none ↔
        ∃ pre post, dList = pre ++ d :: post ∧
          (∃ sel, d.Selector = some sel ∧ selectorSubsetNonEmpty sel labels) ∧
          ∀ r ∈ pre, ¬ ∃ sel, r.Selector = some sel ∧ selectorSubsetNonEmpty sel labels) ∧
      ((∃ err, findDeploymentBasedOnPodLabel dList labels = .ret none (some err)) ↔
        ∀ r ∈ dList, ¬ ∃ sel, r.Selector = some sel ∧ selectorSubsetNonEmpty sel labels)) :=
  ⟨fun rcList => findRC_spec labels rcList,
   fun dList hsel => findDeployment_spec labels dList hsel⟩

/-- Witness for C3: the second controller (deployment) of the list is the first match. -/
theorem findBasedOnPodLabel_first_match_witness :
    findRCBasedOnPodLabel [exOtherRC, exRC, exEmptyValueRC] [("app", "web"), ("tier", "fe")] =
      .ret (some exRC) none ∧
    (∀ d ∈ [exOtherDeployment, exDeployment], d.Selector ≠ none) ∧
    findDeploymentBasedOnPodLabel [exOtherDeployment, exDeployment]
      [("app", "web"), ("tier", "fe")] = .ret (some exDeployment) none :=
  ⟨(((findBasedOnPodLabel_first_match [("app", "web"), ("tier", "fe")]).1
      [exOtherRC, exRC, exEmptyValueRC]).1 exRC).2
      ⟨[exOtherRC], [exEmptyValueRC], rfl, by decide, by decide⟩,
   by decide,
   (((findBasedOnPodLabel_first_match [("app", "web"), ("tier", "fe")]).2
      [exOtherDeployment, exDeployment] (by decide)).1 exDeployment).2
      ⟨[exOtherDeployment], [], rfl, ⟨[("app", "web")], rfl, by decide⟩, by decide⟩⟩

/-- Counterexample to C3 as stated: the selector entry `a=""` is present in the
pod's labels with an equal value, yet both functions answer with the "no match"
error; and a deployment without a selector makes the deployment scan panic
instead of returning. -/
theorem findBasedOnPodLabel_rejects_empty_value :
    selectorSubset exEmptyValueRC.Selector [("a", "")] ∧
    findRCBasedOnPodLabel [exEmptyValueRC] [("a", "")] =
      .ret none (some (.msg "No RC has selectors match Pod labels.")) ∧
    selectorSubset [("a", "")] [("a", "")] ∧
    exEmptyValueDeployment.Selector = some [("a", "")] ∧
    findDeploymentBasedOnPodLabel [exEmptyValueDeployment] [("a", "")] =
      .ret none (some (.msg "No Deployment has selectors match Pod labels.")) ∧
    findDeploymentBasedOnPodLabel [exNoSelectorDeployment, exDeployment] [("app", "web")] =
      .panic := by
  decide

/-- C4 (the code at the failing input): for a pod whose label map is nil,
`FindReplicationControllerForPod` and `FindDeploymentForPod` return a nil
controller together with a nil error, and `buildPendingScalingTurboAction`, which only
checks the error, dereferences the nil controller when it reads `Spec.Replicas`. -/
theorem findControllerForPod_nil_labels :
    exUnlabelledPod.Labels = none ∧
    FindReplicationControllerForPod exUnlabelledScaler.kubeClient exUnlabelledPod =
      .ret none none ∧
    FindDeploymentForPod exUnlabelledScaler.kubeClient exUnlabelledRSPod = .ret none none ∧
    buildPendingScalingTurboAction exUnlabelledScaler (exItemFor .PROVISION "pod-uid-3") =
      .panic ∧
    buildPendingScalingTurboAction exUnlabelledScaler (exItemFor .PROVISION "pod-uid-4") =
      .panic ∧
    (Execute exUnlabelledScaler (some (exItemFor .PROVISION "pod-uid-3"))).result = .panic := by
  decide

/-! ## Validation (C5) -/

theorem findPodByUID_total (uid : String) (pods : List Pod) :
    (∃ pod, findPodByUID uid pods = .ret (some pod) none) ∨
    (∃ err, findPodByUID uid pods = .ret none (some err)) := by
  induction pods with
  | nil => right; exact ⟨_, rfl⟩
  | cons p ps ih =>
    unfold findPodByUID
    split
    · left; exact ⟨p, rfl⟩
    · exact ih

theorem GetPodFromUUID_total (kc : KubeClient) (uid : String) :
    (∃ pod, GetPodFromUUID kc uid = .ret (some pod) none) ∨
    (∃ err, GetPodFromUUID kc uid = .ret none (some err)) := by
  unfold GetPodFromUUID
  split
  · right; exact ⟨_, rfl⟩
  · exact findPodByUID_total uid _

theorem findPodAmongIds_some (kc : KubeClient) (ids : List String) (out : Outcome Pod)
    (h : findPodAmongIds kc ids = some out) : ∃ pod, out = .ret (some pod) none := by
  induction ids with
  | nil => simp [findPodAmongIds] at h
  | cons id rest ih =>
    unfold findPodAmongIds at h
    rcases GetPodFromUUID_total kc id with ⟨pod, hp⟩ | ⟨err, hp⟩
    · rw [hp] at h
      simp at h
      exact ⟨pod, h.symm⟩
    · rw [hp] at h
      simp at h
      exact ih h

theorem findPodAmongProviders_total (kc : KubeClient) (providers : List (Option ProviderInfo)) :
    (∃ pod, findPodAmongProviders kc providers = .ret (some pod) none) ∨
    (∃ err, findPodAmongProviders kc providers = .ret none (some err)) := by
  induction providers with
  | nil => right; exact ⟨_, rfl⟩
  | cons p ps ih =>
    cases p with
    | none => simpa [findPodAmongProviders] using ih
    | some info =>
      unfold findPodAmongProviders
      split
      · cases hids : findPodAmongIds kc info.Ids with
        | none => simpa using ih
        | some out =>
          obtain ⟨pod, hpod⟩ := findPodAmongIds_some kc _ out hids
          left; exact ⟨pod, by simp [hpod]⟩
      · exact ih

theorem FindApplicationPodProvider_total (kc : KubeClient)
    (providers : List (Option ProviderInfo)) :
    (∃ pod, FindApplicationPodProvider kc providers = .ret (some pod) none) ∨
    (∃ err, FindApplicationPodProvider kc providers = .ret none (some err)) := by
  unfold FindApplicationPodProvider
  split
  · right; exact ⟨_, rfl⟩
  · exact findPodAmongProviders_total kc providers

theorem getProviderPod_total (h : HorizontalScaler) (item : ActionItemDTO)
    (hty : GetEntityType item.TargetSE ≠ .OTHER) :
    (∃ pod, getProviderPod h item = .ret (some pod) none) ∨
    (∃ err, getProviderPod h item = .ret none (some err)) := by
  unfold getProviderPod
  simp only
  split
  · rcases GetPodFromUUID_total h.kubeClient (GetId item.TargetSE) with ⟨pod, hp⟩ | ⟨err, hp⟩
    · left; exact ⟨pod, by rw [hp]⟩
    · right; exact ⟨_, by rw [hp]⟩
  · split
    · rcases FindApplicationPodProvider_total h.kubeClient item.Providers with
        ⟨pod, hp⟩ | ⟨err, hp⟩
      · left; exact ⟨pod, by rw [hp]⟩
      · right; exact ⟨_, by rw [hp]⟩
    · split
      · split
        · right; exact ⟨_, rfl⟩
        · split
          · right; exact ⟨_, rfl⟩
          · rcases GetPodFromUUID_total h.kubeClient
              (scanCommoditiesBought "" (GetCommoditiesBought item.CurrentSE)) with
              ⟨pod, hp⟩ | ⟨err, hp⟩
            · left; exact ⟨pod, by rw [hp]⟩
            · right; exact ⟨_, by rw [hp]⟩
      · rename_i h1 h2 h3
        exfalso
        cases hc : GetEntityType item.TargetSE <;> simp_all

theorem build_fail_of_unrecognized (h : HorizontalScaler) (item : ActionItemDTO)
    (hbad : (GetEntityType item.TargetSE ≠ .CONTAINER_POD ∧
        GetEntityType item.TargetSE ≠ .APPLICATION ∧
        GetEntityType item.TargetSE ≠ .VIRTUAL_APPLICATION) ∨
      (item.ActionType ≠ .PROVISION ∧ item.ActionType ≠ .MOVE)) :
    ∃ err, buildPendingScalingTurboAction h item = .ret none (some err) := by
  by_cases hgate : GetEntityType item.TargetSE ≠ .CONTAINER_POD ∧
      GetEntityType item.TargetSE ≠ .APPLICATION
  · exact ⟨_, by simp only [buildPendingScalingTurboAction]; rw [if_pos hgate]⟩
  · rcases hbad with hbad | hbad
    · exact absurd ⟨hbad.1, hbad.2.1⟩ hgate
    · have hother : item.ActionType = .OTHER := by
        cases hc : item.ActionType <;> simp_all
      have hty : GetEntityType item.TargetSE ≠ .OTHER := by
        intro hc; apply hgate; rw [hc]; simp
      simp only [buildPendingScalingTurboAction]
      rw [if_neg hgate]
      rcases getProviderPod_total h item hty with ⟨pod, hp⟩ | ⟨err, hp⟩
      · rw [hp]
        simp only
        cases href : pod.ParentRef with
        | none => exact ⟨_, rfl⟩
        | some ref =>
          simp only [hother, diffAndActionType]
          exact ⟨_, rfl⟩
      · rw [hp]
        exact ⟨_, rfl⟩

/-- C5: for an action item whose target entity type is none of container pod,
application and virtual application, and for an action item whose action type
is neither PROVISION nor MOVE, `Execute` returns a nil action with a non-nil
error, issues no call at all (in particular no controller update), builds no
record, and leaves cluster and broker as they were. -/
theorem execute_rejects_unrecognized (h : HorizontalScaler) (item : ActionItemDTO)
    (hbad : (GetEntityType item.TargetSE ≠ .CONTAINER_POD ∧
        GetEntityType item.TargetSE ≠ .APPLICATION ∧
        GetEntityType item.TargetSE ≠ .VIRTUAL_APPLICATION) ∨
      (item.ActionType ≠ .PROVISION ∧ item.ActionType ≠ .MOVE)) :
    ∃ err, (Execute h (some item)).result = .ret none (some err) ∧
      (Execute h (some item)).trace = [] ∧
      (Execute h (some item)).built = none ∧
      (Execute h (some item)).scaler.kubeClient = h.kubeClient ∧
      (Execute h (some item)).scaler.broker = h.broker := by
  obtain ⟨err, hb⟩ := build_fail_of_unrecognized h item hbad
  exact ⟨err, execute_of_build_fail h item err hb⟩

/-- Witness for C5: an item with another entity type, and an item with another action type. -/
theorem execute_rejects_unrecognized_witness :
    ((GetEntityType (exItemOfType .OTHER .PROVISION).TargetSE ≠ .CONTAINER_POD ∧
        GetEntityType (exItemOfType .OTHER .PROVISION).TargetSE ≠ .APPLICATION ∧
        GetEntityType (exItemOfType .OTHER .PROVISION).TargetSE ≠ .VIRTUAL_APPLICATION) ∧
      ∃ err, (Execute (exScalerWith 2) (some (exItemOfType .OTHER .PROVISION))).result =
          .ret none (some err) ∧
        (Execute (exScalerWith 2) (some (exItemOfType .OTHER .PROVISION))).trace = [] ∧
        (Execute (exScalerWith 2) (some (exItemOfType .OTHER .PROVISION))).built = none ∧
        (Execute (exScalerWith 2) (some (exItemOfType .OTHER .PROVISION))).scaler.kubeClient =
          (exScalerWith 2).kubeClient ∧
        (Execute (exScalerWith 2) (some (exItemOfType .OTHER .PROVISION))).scaler.broker =
          (exScalerWith 2).broker) ∧
    (((exItem .OTHER).ActionType ≠ .PROVISION ∧ (exItem .OTHER).ActionType ≠ .MOVE) ∧
      ∃ err, (Execute (exScalerWith 2) (some (exItem .OTHER))).result = .ret none (some err) ∧
        (Execute (exScalerWith 2) (some (exItem .OTHER))).trace = [] ∧
        (Execute (exScalerWith 2) (some (exItem .OTHER))).built = none ∧
        (Execute (exScalerWith 2) (some (exItem .OTHER))).scaler.kubeClient =
          (exScalerWith 2).kubeClient ∧
        (Execute (exScalerWith 2) (some (exItem .OTHER))).scaler.broker =
          (exScalerWith 2).broker) :=
  ⟨⟨by decide, execute_rejects_unrecognized _ _ (Or.inl (by decide))⟩,
   ⟨by decide, execute_rejects_unrecognized _ _ (Or.inr (by decide))⟩⟩

/-! ## The scaling protocol (C6 to C10) -/

/-- C6: a run of `horizontalScale` that issues any call at all starts with the
creation of the pod consumer under the key `ParentObjectUID`, and whatever
precedes a controller update call in the order of issued calls starts with that
creation: the subscription comes first, no update call does. -/
theorem horizontalScale_subscribes_before_update (h : HorizontalScaler) (a : TurboAction) :
    ((horizontalScale h a).trace = [] ∨
      ∃ rest, (horizontalScale h a).trace =
        Event.subscribe a.Content.ParentObjectRef.ParentObjectUID a.UID :: rest) ∧
    (∀ (pre post : List Event) (e : Event),
      (horizontalScale h a).trace = pre ++ e :: post → e.isUpdate = true →
      ∃ pre', pre = Event.subscribe a.Content.ParentObjectRef.ParentObjectUID a.UID :: pre') := by
  rcases horizontalScale_trace h a with h0 | ⟨tail, ht, _⟩
  · refine ⟨Or.inl h0, ?_⟩
    intro pre post e hsplit _
    rw [h0] at hsplit
    simp at hsplit
  · refine ⟨Or.inr ⟨_, ht⟩, ?_⟩
    intro pre post e hsplit hu
    rw [ht] at hsplit
    cases pre with
    | nil =>
      simp at hsplit
      rw [← hsplit.1] at hu
      simp [Event.isUpdate] at hu
    | cons p ps =>
      simp at hsplit
      exact ⟨ps, by rw [hsplit.1]⟩

/-- Witness for C6: the provision run on `rc-1`, split at its update call. -/
theorem horizontalScale_subscribes_before_update_witness :
    (horizontalScale (exScalerWith 2) (exAction .ActionProvision ⟨2, 3⟩)).trace =
      [.subscribe "rc-uid-1" "action-1"] ++ .updateRC { exRC with Replicas := some 3 } ::
        [.waitPod "rc-uid-1", .leave "rc-uid-1" "action-1", .schedule exNewPod] ∧
    (Event.updateRC { exRC with Replicas := some 3 }).isUpdate = true ∧
    ∃ pre', [Event.subscribe "rc-uid-1" "action-1"] =
      Event.subscribe
        (exAction .ActionProvision ⟨2, 3⟩).Content.ParentObjectRef.ParentObjectUID
        (exAction .ActionProvision ⟨2, 3⟩).UID :: pre' :=
  ⟨by decide, by decide,
   (horizontalScale_subscribes_before_update (exScalerWith 2)
      (exAction .ActionProvision ⟨2, 3⟩)).2
     [.subscribe "rc-uid-1" "action-1"]
     [.waitPod "rc-uid-1", .leave "rc-uid-1" "action-1", .schedule exNewPod]
     (.updateRC { exRC with Replicas := some 3 }) (by decide) (by decide)⟩

/-- C7 (the code at the failing inputs): when the deadline elapses with no pod
published, and when the replica update fails, `horizontalScale` returns its
error without a `Leave` call and the consumer is still subscribed under the
key; only the run in which a pod is delivered releases the subscription. -/
theorem horizontalScale_keeps_subscription :
    ((horizontalScale (exScaler Faults.none .timeout none)
        (exAction .ActionProvision ⟨2, 3⟩)).result =
        .ret none (some (.msg
          "Timed out at the second phase when try to finish the horizontal scale process")) ∧
      (horizontalScale (exScaler Faults.none .timeout none)
        (exAction .ActionProvision ⟨2, 3⟩)).trace =
        [.subscribe "rc-uid-1" "action-1", .updateRC { exRC with Replicas := some 3 },
         .waitPod "rc-uid-1"] ∧
      (horizontalScale (exScaler Faults.none .timeout none)
        (exAction .ActionProvision ⟨2, 3⟩)).scaler.broker.subscribers =
        [("rc-uid-1", "action-1")]) ∧
    ((horizontalScale (exScaler exFaultsRCGet (.delivered exNewPod) none)
        (exAction .ActionProvision ⟨2, 3⟩)).result =
        .ret none (some (.wrap "Failed to update replica: %s" (.wrap
          "Failed to find replication controller for finishing the scaling action: %s"
          .remote))) ∧
      (horizontalScale (exScaler exFaultsRCGet (.delivered exNewPod) none)
        (exAction .ActionProvision ⟨2, 3⟩)).trace = [.subscribe "rc-uid-1" "action-1"] ∧
      (horizontalScale (exScaler exFaultsRCGet (.delivered exNewPod) none)
        (exAction .ActionProvision ⟨2, 3⟩)).scaler.broker.subscribers =
        [("rc-uid-1", "action-1")]) ∧
    ((horizontalScale (exScaler Faults.none (.delivered exNewPod) none)
        (exAction .ActionProvision ⟨2, 3⟩)).trace =
        [.subscribe "rc-uid-1" "action-1", .updateRC { exRC with Replicas := some 3 },
         .waitPod "rc-uid-1", .leave "rc-uid-1" "action-1", .schedule exNewPod] ∧
      (horizontalScale (exScaler Faults.none (.delivered exNewPod) none)
        (exAction .ActionProvision ⟨2, 3⟩)).scaler.broker.subscribers = []) := by
  decide

theorem updateReplica_no_schedule (kc : KubeClient) (t : TargetObject) (p : ParentObjectRef)
    (s : ActionSpec) : (updateReplica kc t p s).trace.filter Event.isSchedule = [] := by
  cases s with
  | other => simp [updateReplica]
  | scale spec =>
    rcases updateReplica_trace kc t p spec with h0 | ⟨rc, h1, _⟩ | ⟨d, h1, _⟩
    · rw [h0]; rfl
    · rw [h1]; rfl
    · rw [h1]; rfl

theorem horizontalScale_delivered_run (h : HorizontalScaler) (a : TurboAction) (spec : ScaleSpec)
    (pod : Pod)
    (hspec : a.Content.ActionSpec = .scale spec) (hnn : 0 ≤ spec.NewReplicas)
    (hkey : a.Content.ParentObjectRef.ParentObjectUID ≠ "")
    (hty : a.Content.ActionType ≠ .ActionUnbind)
    (hupd : (updateReplica h.kubeClient a.Content.TargetObject a.Content.ParentObjectRef
      a.Content.ActionSpec).err = .ret none)
    (hdel : h.broker.delivery = .delivered pod) :
    (horizontalScale h a).trace =
      Event.subscribe a.Content.ParentObjectRef.ParentObjectUID a.UID ::
        ((updateReplica h.kubeClient a.Content.TargetObject a.Content.ParentObjectRef
          a.Content.ActionSpec).trace ++
        [.waitPod a.Content.ParentObjectRef.ParentObjectUID,
         .leave a.Content.ParentObjectRef.ParentObjectUID a.UID, .schedule pod]) ∧
    (horizontalScale h a).scaler.broker =
      Leave a.UID a.Content.ParentObjectRef.ParentObjectUID
        (NewPodConsumer a.UID a.Content.ParentObjectRef.ParentObjectUID h.broker) ∧
    (horizontalScale h a).scaler.kubeClient =
      (updateReplica h.kubeClient a.Content.TargetObject a.Content.ParentObjectRef
        a.Content.ActionSpec).kubeClient ∧
    (h.scheduler.Schedule pod = none →
      (horizontalScale h a).result = .ret (some { a with Status := .Executed }) none ∧
      (horizontalScale h a).action = { a with Status := .Executed }) ∧
    (∀ err, h.scheduler.Schedule pod = some err →
      (horizontalScale h a).result =
        .ret none (some (.wrap "Error scheduling the new provisioned pod: %s" err)) ∧
      (horizontalScale h a).action = a) := by
  have hneg : ¬ spec.NewReplicas < 0 := by omega
  have hdel' : (NewPodConsumer a.UID a.Content.ParentObjectRef.ParentObjectUID h.broker).delivery
      = .delivered pod := by simp [NewPodConsumer, hdel]
  rw [hspec] at hupd
  unfold horizontalScale
  simp only [hspec, if_neg hneg, if_neg hkey, hupd, if_neg hty, hdel']
  refine ⟨?_, ?_, ?_, ?_, ?_⟩
  · cases hsch : h.scheduler.Schedule pod <;> simp
  · cases hsch : h.scheduler.Schedule pod <;> simp
  · cases hsch : h.scheduler.Schedule pod <;> simp
  · intro hsch
    simp [hsch]
  · intro err hsch
    simp [hsch]

theorem storeReplicationController_stored (c : Cluster) (rc : ReplicationController) :
    ∀ r ∈ (storeReplicationController c rc).rcs,
      r.Namespace = rc.Namespace → r.Name = rc.Name → r = rc := by
  intro r hr hns hname
  unfold storeReplicationController at hr
  simp only [List.mem_map] at hr
  obtain ⟨old, _, hold⟩ := hr
  split at hold
  · exact hold.symm
  · rename_i hne
    subst hold
    exact absurd ⟨hns, hname⟩ hne

theorem storeDeployment_stored (c : Cluster) (d : Deployment) :
    ∀ r ∈ (storeDeployment c d).deployments,
      r.Namespace = d.Namespace → r.Name = d.Name → r = d := by
  intro r hr hns hname
  unfold storeDeployment at hr
  simp only [List.mem_map] at hr
  obtain ⟨old, _, hold⟩ := hr
  split at hold
  · exact hold.symm
  · rename_i hne
    subst hold
    exact absurd ⟨hns, hname⟩ hne

/-- C8: for a provision action whose replica update succeeds and for which the
broker delivers a pod, `horizontalScale` issues, after the update, the wait,
then `Leave` for the key, then exactly one scheduler call, with the delivered
pod; the consumer is no longer subscribed; if the scheduler call succeeds the
status is set to `Executed` and the same action is returned with content, UID
and namespace unchanged; if it fails an error is returned and the record is
left as it was. -/
theorem horizontalScale_schedules_delivered_pod (h : HorizontalScaler) (a : TurboAction)
    (spec : ScaleSpec) (pod : Pod)
    (hspec : a.Content.ActionSpec = .scale spec) (hnn : 0 ≤ spec.NewReplicas)
    (hkey : a.Content.ParentObjectRef.ParentObjectUID ≠ "")
    (hty : a.Content.ActionType = .ActionProvision)
    (hupd : (updateReplica h.kubeClient a.Content.TargetObject a.Content.ParentObjectRef
      a.Content.ActionSpec).err = .ret none)
    (hdel : h.broker.delivery = .delivered pod) :
    (horizontalScale h a).trace =
      Event.subscribe a.Content.ParentObjectRef.ParentObjectUID a.UID ::
        ((updateReplica h.kubeClient a.Content.TargetObject a.Content.ParentObjectRef
          a.Content.ActionSpec).trace ++
        [.waitPod a.Content.ParentObjectRef.ParentObjectUID,
         .leave a.Content.ParentObjectRef.ParentObjectUID a.UID, .schedule pod]) ∧
    (horizontalScale h a).trace.filter Event.isSchedule = [.schedule pod] ∧
    (a.Content.ParentObjectRef.ParentObjectUID, a.UID) ∉
      (horizontalScale h a).scaler.broker.subscribers ∧
    (h.scheduler.Schedule pod = none →
      (horizontalScale h a).action.Status = .Executed ∧
      ∃ a', (horizontalScale h a).result = .ret (some a') none ∧
        a' = (horizontalScale h a).action ∧ a'.Content = a.Content ∧
        a'.UID = a.UID ∧ a'.Namespace = a.Namespace) ∧
    (∀ err, h.scheduler.Schedule pod = some err →
      (horizontalScale h a).result =
        .ret none (some (.wrap "Error scheduling the new provisioned pod: %s" err)) ∧
      (horizontalScale h a).action = a) := by
  have hty' : a.Content.ActionType ≠ .ActionUnbind := by rw [hty]; decide
  obtain ⟨htr, hbr, _, hok, hfail⟩ :=
    horizontalScale_delivered_run h a spec pod hspec hnn hkey hty' hupd hdel
  refine ⟨htr, ?_, ?_, ?_, hfail⟩
  · rw [htr]
    simp [List.filter_cons, List.filter_append, updateReplica_no_schedule, Event.isSchedule]
  · rw [hbr]
    simp [Leave]
  · intro hsch
    obtain ⟨hres, hact⟩ := hok hsch
    refine ⟨by rw [hact], _, hres, by rw [hact], rfl, rfl, rfl⟩

/-- Witness for C8: the provision run on `rc-1` with 2 replicas. -/
theorem horizontalScale_schedules_delivered_pod_witness :
    (exAction .ActionProvision ⟨2, 3⟩).Content.ActionType = .ActionProvision ∧
    (updateReplica (exScalerWith 2).kubeClient
      (exAction .ActionProvision ⟨2, 3⟩).Content.TargetObject
      (exAction .ActionProvision ⟨2, 3⟩).Content.ParentObjectRef
      (exAction .ActionProvision ⟨2, 3⟩).Content.ActionSpec).err = .ret none ∧
    (exScalerWith 2).broker.delivery = .delivered exNewPod ∧
    (horizontalScale (exScalerWith 2) (exAction .ActionProvision ⟨2, 3⟩)).trace.filter
      Event.isSchedule = [.schedule exNewPod] ∧
    (horizontalScale (exScalerWith 2) (exAction .ActionProvision ⟨2, 3⟩)).action.Status =
      .Executed :=
  ⟨by decide, by decide, by decide,
   (horizontalScale_schedules_delivered_pod (exScalerWith 2)
      (exAction .ActionProvision ⟨2, 3⟩) ⟨2, 3⟩ exNewPod
      (by decide) (by decide) (by decide) (by decide) (by decide) (by decide)).2.1,
   ((horizontalScale_schedules_delivered_pod (exScalerWith 2)
      (exAction .ActionProvision ⟨2, 3⟩) ⟨2, 3⟩ exNewPod
      (by decide) (by decide) (by decide) (by decide) (by decide) (by decide)).2.2.2.1
      (by decide)).1⟩

/-- C9 (amended): for an unbind action whose replica update succeeds,
`horizontalScale` returns the action with status `Executed`; the run starts
with the creation of the pod consumer under the parent's UID, as for any
action, followed by the calls of the update, and it neither waits on the
broker nor calls the scheduler. -/
theorem horizontalScale_unbind_run (h : HorizontalScaler) (a : TurboAction) (spec : ScaleSpec)
    (hspec : a.Content.ActionSpec = .scale spec) (hnn : 0 ≤ spec.NewReplicas)
    (hkey : a.Content.ParentObjectRef.ParentObjectUID ≠ "")
    (hty : a.Content.ActionType = .ActionUnbind)
    (hupd : (updateReplica h.kubeClient a.Content.TargetObject a.Content.ParentObjectRef
      a.Content.ActionSpec).err = .ret none) :
    (horizontalScale h a).result = .ret (some { a with Status := .Executed }) none ∧
    (horizontalScale h a).action = { a with Status := .Executed } ∧
    (∃ tail, (horizontalScale h a).trace =
        Event.subscribe a.Content.ParentObjectRef.ParentObjectUID a.UID ::
          ((updateReplica h.kubeClient a.Content.TargetObject a.Content.ParentObjectRef
            a.Content.ActionSpec).trace ++ tail) ∧
      ∀ e ∈ tail, e.isUpdate = false ∧ e.isSchedule = false ∧ ∀ key, e ≠ .waitPod key) ∧
    (∀ e ∈ (horizontalScale h a).trace, e.isSchedule = false ∧ ∀ key, e ≠ .waitPod key) := by
  have hneg : ¬ spec.NewReplicas < 0 := by omega
  have hupd' := hupd
  rw [hspec] at hupd'
  have htrace : (horizontalScale h a).trace =
      Event.subscribe a.Content.ParentObjectRef.ParentObjectUID a.UID ::
        (updateReplica h.kubeClient a.Content.TargetObject a.Content.ParentObjectRef
          a.Content.ActionSpec).trace := by
    unfold horizontalScale
    simp only [hspec, if_neg hneg, if_neg hkey, hupd', if_pos hty]
  refine ⟨?_, ?_, ⟨[], by rw [htrace]; simp, by simp⟩, ?_⟩
  · unfold horizontalScale
    simp only [hspec, if_neg hneg, if_neg hkey, hupd', if_pos hty]
  · unfold horizontalScale
    simp only [hspec, if_neg hneg, if_neg hkey, hupd', if_pos hty]
  · intro e he
    rw [htrace, hspec] at he
    rcases List.mem_cons.1 he with he | he
    · subst he; simp [Event.isSchedule]
    · rcases updateReplica_trace h.kubeClient a.Content.TargetObject a.Content.ParentObjectRef
        spec with h0 | ⟨rc, h1, _⟩ | ⟨d, h1, _⟩
      · rw [h0] at he; simp at he
      · rw [h1] at he; simp at he; subst he; simp [Event.isSchedule]
      · rw [h1] at he; simp at he; subst he; simp [Event.isSchedule]

/-- Witness for C9: an unbind on `rc-1` with 2 replicas. -/
theorem horizontalScale_unbind_run_witness :
    (exAction .ActionUnbind ⟨2, 1⟩).Content.ActionType = .ActionUnbind ∧
    (updateReplica (exScalerWith 2).kubeClient
      (exAction .ActionUnbind ⟨2, 1⟩).Content.TargetObject
      (exAction .ActionUnbind ⟨2, 1⟩).Content.ParentObjectRef
      (exAction .ActionUnbind ⟨2, 1⟩).Content.ActionSpec).err = .ret none ∧
    (horizontalScale (exScalerWith 2) (exAction .ActionUnbind ⟨2, 1⟩)).result =
      .ret (some { exAction .ActionUnbind ⟨2, 1⟩ with Status := .Executed }) none :=
  ⟨by decide, by decide,
   (horizontalScale_unbind_run (exScalerWith 2) (exAction .ActionUnbind ⟨2, 1⟩) ⟨2, 1⟩
      (by decide) (by decide) (by decide) (by decide) (by decide)).1⟩

/-- Counterexample to C9 as stated: in the run of an unbind action whose update
succeeds, on a broker without subscribers, the pod consumer is created under
the parent's UID before the update and the broker holds that subscription
afterwards. -/
theorem horizontalScale_unbind_subscribes :
    (exAction .ActionUnbind ⟨2, 1⟩).Content.ActionType = .ActionUnbind ∧
    (updateReplica (exScalerWith 2).kubeClient
      (exAction .ActionUnbind ⟨2, 1⟩).Content.TargetObject
      (exAction .ActionUnbind ⟨2, 1⟩).Content.ParentObjectRef
      (exAction .ActionUnbind ⟨2, 1⟩).Content.ActionSpec).err = .ret none ∧
    (exScalerWith 2).broker.subscribers = [] ∧
    (horizontalScale (exScalerWith 2) (exAction .ActionUnbind ⟨2, 1⟩)).trace =
      [.subscribe "rc-uid-1" "action-1", .updateRC { exRC with Replicas := some 1 }] ∧
    (horizontalScale (exScalerWith 2)
      (exAction .ActionUnbind ⟨2, 1⟩)).scaler.broker.subscribers =
      [("rc-uid-1", "action-1")] := by
  decide

/-- C10: when a provision action is built, the replica update succeeds, a pod is
delivered and the scheduler call on it fails, `Execute` returns a nil action
with the scheduling error, the built record still has status `Pending`, the
run issued exactly one controller update call, carrying the new replica count
(the original count plus one), and the cluster is left as that update stored it:
the updated controller keeps the new count. -/
theorem execute_scheduler_failure (h : HorizontalScaler) (item : ActionItemDTO)
    (a : TurboAction) (pod : Pod) (err : Error)
    (hb : buildPendingScalingTurboAction h item = .ret (some a) none)
    (hty : item.ActionType = .PROVISION)
    (hkey : a.Content.ParentObjectRef.ParentObjectUID ≠ "")
    (hupd : (updateReplica h.kubeClient a.Content.TargetObject a.Content.ParentObjectRef
      a.Content.ActionSpec).err = .ret none)
    (hdel : h.broker.delivery = .delivered pod)
    (hsch : h.scheduler.Schedule pod = some err) :
    (Execute h (some item)).result =
      .ret none (some (.wrap "Error scheduling the new provisioned pod: %s" err)) ∧
    (Execute h (some item)).built = some a ∧ a.Status = .Pending ∧
    ∃ spec, a.Content.ActionSpec = .scale spec ∧
      (isInt32 spec.OriginalReplicas → spec.NewReplicas = spec.OriginalReplicas + 1) ∧
      ((∃ rc, (Execute h (some item)).trace.filter Event.isUpdate = [.updateRC rc] ∧
          rc.Replicas = some spec.NewReplicas ∧
          (Execute h (some item)).scaler.kubeClient.cluster =
            storeReplicationController h.kubeClient.cluster rc ∧
          ∀ r ∈ (Execute h (some item)).scaler.kubeClient.cluster.rcs,
            r.Namespace = rc.Namespace → r.Name = rc.Name →
              r.Replicas = some spec.NewReplicas) ∨
       (∃ d, (Execute h (some item)).trace.filter Event.isUpdate = [.updateDeployment d] ∧
          d.Replicas = some spec.NewReplicas ∧
          (Execute h (some item)).scaler.kubeClient.cluster =
            storeDeployment h.kubeClient.cluster d ∧
          ∀ r ∈ (Execute h (some item)).scaler.kubeClient.cluster.deployments,
            r.Namespace = d.Namespace → r.Name = d.Name →
              r.Replicas = some spec.NewReplicas)) := by
  obtain ⟨pod0, ref, diff, ty, spec, uuid, _, _, _, hdiff, hsw, hnn, _, ha⟩ :=
    build_inv h item a hb
  rw [hty] at hdiff
  simp [diffAndActionType] at hdiff
  obtain ⟨hd, hty'⟩ := hdiff
  subst hd
  subst hty'
  have hspec : a.Content.ActionSpec = .scale spec := by rw [ha]; rfl
  have hkind : a.Content.ActionType ≠ .ActionUnbind := by rw [ha]; simp [NewTurboAction]
  have hstatus : a.Status = .Pending := by rw [ha]; rfl
  obtain ⟨N, hN, _⟩ := switch_inv h pod0 ref 1 spec hsw
  obtain ⟨htr, _, hkc, _, hfail⟩ :=
    horizontalScale_delivered_run h a spec pod hspec hnn hkey hkind hupd hdel
  obtain ⟨hres, hact⟩ := hfail err hsch
  obtain ⟨etr, eres, ebuilt, escaler⟩ := execute_trace_of_build h item a hb
  have hfilter : (Execute h (some item)).trace.filter Event.isUpdate =
      (updateReplica h.kubeClient a.Content.TargetObject a.Content.ParentObjectRef
        (.scale spec)).trace.filter Event.isUpdate := by
    rw [etr, htr, hspec]
    simp [List.filter_cons, List.filter_append, Event.isUpdate]
  have hcluster : (Execute h (some item)).scaler.kubeClient =
      (updateReplica h.kubeClient a.Content.TargetObject a.Content.ParentObjectRef
        (.scale spec)).kubeClient := by
    rw [escaler, hkc, hspec]
  refine ⟨by rw [eres, hres], by rw [ebuilt, hact], hstatus, spec, hspec, ?_, ?_⟩
  · intro hint
    rw [hN] at hint hnn ⊢
    simp only at hint hnn ⊢
    by_cases hmax : N = maxInt32
    · exfalso
      rw [hmax] at hnn
      have := wrap32_succ_max
      omega
    · exact wrap32_succ N hint hmax
  · rw [hspec] at hupd
    rcases updateReplica_ok_trace h.kubeClient a.Content.TargetObject
      a.Content.ParentObjectRef spec hupd with ⟨rc, h1, h2, h3⟩ | ⟨d, h1, h2, h3⟩
    · left
      refine ⟨rc, by rw [hfilter, h1]; rfl, h2, by rw [hcluster, h3], ?_⟩
      intro r hr hns hname
      rw [hcluster, h3] at hr
      rw [storeReplicationController_stored _ rc r hr hns hname]
      exact h2
    · right
      refine ⟨d, by rw [hfilter, h1]; rfl, h2, by rw [hcluster, h3], ?_⟩
      intro r hr hns hname
      rw [hcluster, h3] at hr
      rw [storeDeployment_stored _ d r hr hns hname]
      exact h2

/-- Witness for C10: the provision run on `rc-1` with a failing scheduler. -/
theorem execute_scheduler_failure_witness :
    buildPendingScalingTurboAction (exScaler Faults.none (.delivered exNewPod) (some .remote))
      (exItem .PROVISION) = .ret (some (exAction .ActionProvision ⟨2, 3⟩)) none ∧
    (exScaler Faults.none (.delivered exNewPod) (some .remote)).scheduler.Schedule exNewPod =
      some .remote ∧
    (Execute (exScaler Faults.none (.delivered exNewPod) (some .remote))
      (some (exItem .PROVISION))).result =
      .ret none (some (.wrap "Error scheduling the new provisioned pod: %s" .remote)) ∧
    (Execute (exScaler Faults.none (.delivered exNewPod) (some .remote))
      (some (exItem .PROVISION))).built = some (exAction .ActionProvision ⟨2, 3⟩) ∧
    (exAction .ActionProvision ⟨2, 3⟩).Status = .Pending :=
  ⟨by decide, by decide,
   (execute_scheduler_failure (exScaler Faults.none (.delivered exNewPod) (some .remote))
      (exItem .PROVISION) (exAction .ActionProvision ⟨2, 3⟩) exNewPod .remote
      (by decide) (by decide) (by decide) (by decide) (by decide) (by decide)).1,
   (execute_scheduler_failure (exScaler Faults.none (.delivered exNewPod) (some .remote))
      (exItem .PROVISION) (exAction .ActionProvision ⟨2, 3⟩) exNewPod .remote
      (by decide) (by decide) (by decide) (by decide) (by decide) (by decide)).2.1,
   (execute_scheduler_failure (exScaler Faults.none (.delivered exNewPod) (some .remote))
      (exItem .PROVISION) (exAction .ActionProvision ⟨2, 3⟩) exNewPod .remote
      (by decide) (by decide) (by decide) (by decide) (by decide) (by decide)).2.2.1⟩

/-! ## Target resolution (C11, C12) -/

/-- C11 (the code at the failing input): for an unbind request whose target is a
virtual application and whose current entity is an application buying from a
container pod present in the cluster, `getProviderPod` resolves that pod, but
`buildPendingScalingTurboAction` never gets there: its first test accepts only
container pod and application, so it returns the "neither a Pod nor an
Application" error and `Execute` issues no call. -/
theorem build_rejects_virtual_application :
    GetEntityType exVirtualAppItem.TargetSE = .VIRTUAL_APPLICATION ∧
    GetEntityType exVirtualAppItem.CurrentSE = .APPLICATION ∧
    GetCommoditiesBought exVirtualAppItem.CurrentSE =
      [{ ProviderType := .CONTAINER_POD, ProviderId := "pod-uid-1" }] ∧
    exPod ∈ (exScalerWith 2).kubeClient.cluster.pods ∧ exPod.UID = "pod-uid-1" ∧
    getProviderPod (exScalerWith 2) exVirtualAppItem = .ret (some exPod) none ∧
    buildPendingScalingTurboAction (exScalerWith 2) exVirtualAppItem =
      .ret none (some (.msg
        "The target service entity for scaling action is neither a Pod nor an Application.")) ∧
    (Execute (exScalerWith 2) (some exVirtualAppItem)).trace = [] := by
  decide

theorem findPodByUID_eq (uid : String) (pods : List Pod) :
    findPodByUID uid pods =
      match podWithUID pods uid with
      | some pod => .ret (some pod) none
      | none => .ret none (some (.msg "cannot find pod based on given uuid: %s")) := by
  induction pods with
  | nil => rfl
  | cons p ps ih =>
    unfold findPodByUID podWithUID
    by_cases hp : p.UID = uid
    · simp [hp, List.find?]
    · rw [if_neg hp, ih]
      simp [hp, List.find?, podWithUID]

theorem findPodAmongIds_eq (kc : KubeClient) (hlist : kc.faults.podList = false)
    (ids : List String) :
    findPodAmongIds kc ids =
      (ids.findSome? (podWithUID kc.cluster.pods)).map (fun pod => .ret (some pod) none) := by
  induction ids with
  | nil => rfl
  | cons id rest ih =>
    unfold findPodAmongIds
    simp only [GetPodFromUUID, hlist, Bool.false_eq_true, if_false, findPodByUID_eq]
    cases hp : podWithUID kc.cluster.pods id with
    | none => simp [List.findSome?, hp, ih]
    | some pod => simp [List.findSome?, hp]

theorem findPodAmongProviders_eq (kc : KubeClient) (hlist : kc.faults.podList = false)
    (providers : List (Option ProviderInfo)) :
    findPodAmongProviders kc providers =
      match firstResolvablePod kc.cluster.pods providers with
      | some pod => .ret (some pod) none
      | none => .ret none (some (.msg "Cannot find any Pod provider")) := by
  induction providers with
  | nil => rfl
  | cons p ps ih =>
    cases p with
    | none =>
      simpa [findPodAmongProviders, firstResolvablePod, candidatePodIds] using ih
    | some info =>
      unfold findPodAmongProviders
      by_cases hty : info.EntityType = .CONTAINER_POD
      · rw [if_pos hty, findPodAmongIds_eq kc hlist]
        simp only [firstResolvablePod, candidatePodIds, if_pos hty, List.findSome?_append]
        cases hids : List.findSome? (podWithUID kc.cluster.pods) info.Ids with
        | none =>
          simp only [Option.map_none', Option.or]
          simpa [firstResolvablePod] using ih
        | some pod => simp [Option.or]
      · rw [if_neg hty]
        simpa [firstResolvablePod, candidatePodIds, hty] using ih

theorem FindApplicationPodProvider_eq (kc : KubeClient) (hlist : kc.faults.podList = false)
    (providers : List (Option ProviderInfo)) :
    FindApplicationPodProvider kc providers =
      match firstResolvablePod kc.cluster.pods providers with
      | some pod => .ret (some pod) none
      | none =>
        .ret none (some (.msg
          (if providers = [] then "Cannot find any provider."
           else "Cannot find any Pod provider"))) := by
  unfold FindApplicationPodProvider
  cases providers with
  | nil => simp [firstResolvablePod, candidatePodIds]
  | cons p ps =>
    have hlen : ¬ (p :: ps).length < 1 := by simp
    rw [if_neg hlen, findPodAmongProviders_eq kc hlist]
    cases firstResolvablePod kc.cluster.pods (p :: ps) <;> simp

theorem firstResolvablePod_eq_none (pods : List Pod) (providers : List (Option ProviderInfo)) :
    firstResolvablePod pods providers = none ↔
      ∀ id ∈ candidatePodIds providers, ∀ pod ∈ pods, pod.UID ≠ id := by
  unfold firstResolvablePod podWithUID
  simp [List.findSome?_eq_none_iff]

theorem firstResolvablePod_eq_some (pods : List Pod) (providers : List (Option ProviderInfo))
    (pod : Pod) :
    firstResolvablePod pods providers = some pod ↔
      ∃ pre id post, candidatePodIds providers = pre ++ id :: post ∧
        (∀ i ∈ pre, ∀ p ∈ pods, p.UID ≠ i) ∧ podWithUID pods id = some pod := by
  unfold firstResolvablePod
  generalize candidatePodIds providers = ids
  induction ids with
  | nil => simp
  | cons i rest ih =>
    cases hi : podWithUID pods i with
    | some q =>
      simp only [List.findSome?, hi]
      constructor
      · intro h
        exact ⟨[], i, rest, rfl, by simp, by rw [hi, h]⟩
      · rintro ⟨pre, id, post, hsplit, hpre, hpod⟩
        cases pre with
        | nil =>
          simp at hsplit
          rw [← hsplit.1, hi] at hpod
          exact hpod
        | cons x xs =>
          simp at hsplit
          exfalso
          have hmem : q ∈ pods ∧ q.UID = i := by
            unfold podWithUID at hi
            have := List.find?_some hi
            exact ⟨List.mem_of_find?_eq_some hi, by simpa using this⟩
          exact hpre x (by simp) q hmem.1 (by rw [hmem.2, hsplit.1])
    | none =>
      simp only [List.findSome?, hi]
      rw [ih]
      constructor
      · rintro ⟨pre, id, post, hsplit, hpre, hpod⟩
        refine ⟨i :: pre, id, post, by rw [hsplit]; rfl, ?_, hpod⟩
        intro j hj p hp
        rcases List.mem_cons.1 hj with hj | hj
        · subst hj
          unfold podWithUID at hi
          have := List.find?_eq_none.1 hi p hp
          simpa using this
        · exact hpre j hj p hp
      · rintro ⟨pre, id, post, hsplit, hpre, hpod⟩
        cases pre with
        | nil =>
          simp at hsplit
          rw [← hsplit.1, hi] at hpod
          cases hpod
        | cons x xs =>
          simp at hsplit
          exact ⟨xs, id, post, hsplit.2, fun j hj => hpre j (by simp [hj]), hpod⟩

theorem findPodAmongIds_of_list_fault (kc : KubeClient) (hlist : kc.faults.podList = true)
    (ids : List String) : findPodAmongIds kc ids = none := by
  induction ids with
  | nil => rfl
  | cons id rest ih =>
    unfold findPodAmongIds
    simp [GetPodFromUUID, hlist, ih]

theorem findPodAmongProviders_of_list_fault (kc : KubeClient)
    (hlist : kc.faults.podList = true) (providers : List (Option ProviderInfo)) :
    findPodAmongProviders kc providers = .ret none (some (.msg "Cannot find any Pod provider")) := by
  induction providers with
  | nil => rfl
  | cons p ps ih =>
    cases p with
    | none => simpa [findPodAmongProviders] using ih
    | some info =>
      unfold findPodAmongProviders
      split
      · rw [findPodAmongIds_of_list_fault kc hlist]
        exact ih
      · exact ih

/-- C12: when the pod listing succeeds, `FindApplicationPodProvider` returns a pod
exactly when it is the pod for the first id, among the ids of the non-nil
providers of entity type container pod taken in order, that is the UID of a
pod of the cluster; it returns an error exactly when the list is empty or no
such id is the UID of a pod. When the pod listing fails no id resolves and it
returns an error. -/
theorem FindApplicationPodProvider_first_resolvable (kubeClient : KubeClient)
    (providers : List (Option ProviderInfo)) :
    (kubeClient.faults.podList = false →
      (∀ pod, FindApplicationPodProvider kubeClient providers = .ret (some pod) none ↔
        firstResolvablePod kubeClient.cluster.pods providers = some pod) ∧
      (∀ pod, FindApplicationPodProvider kubeClient providers = .ret (some pod) none ↔
        ∃ pre id post, candidatePodIds providers = pre ++ id :: post ∧
          (∀ i ∈ pre, ∀ p ∈ kubeClient.cluster.pods, p.UID ≠ i) ∧
          podWithUID kubeClient.cluster.pods id = some pod) ∧
      ((∃ err, FindApplicationPodProvider kubeClient providers = .ret none (some err)) ↔
        (providers = [] ∨
          ∀ id ∈ candidatePodIds providers, ∀ pod ∈ kubeClient.cluster.pods, pod.UID ≠ id))) ∧
    (kubeClient.faults.podList = true →
      ∃ err, FindApplicationPodProvider kubeClient providers = .ret none (some err)) := by
  constructor
  · intro hlist
    have heq := FindApplicationPodProvider_eq kubeClient hlist providers
    have hsome : ∀ pod, FindApplicationPodProvider kubeClient providers = .ret (some pod) none ↔
        firstResolvablePod kubeClient.cluster.pods providers = some pod := by
      intro pod
      rw [heq]
      cases firstResolvablePod kubeClient.cluster.pods providers <;> simp
    refine ⟨hsome, ?_, ?_⟩
    · intro pod
      rw [hsome pod]
      exact firstResolvablePod_eq_some _ _ pod
    · rw [heq]
      constructor
      · rintro ⟨err, herr⟩
        right
        apply (firstResolvablePod_eq_none _ _).1
        cases hf : firstResolvablePod kubeClient.cluster.pods providers with
        | none => rfl
        | some pod => rw [hf] at herr; simp at herr
      · intro hno
        have hnone : firstResolvablePod kubeClient.cluster.pods providers = none := by
          rcases hno with hnil | hno
          · subst hnil; rfl
          · exact (firstResolvablePod_eq_none _ _).2 hno
        rw [hnone]
        exact ⟨_, rfl⟩
  · intro hlist
    unfold FindApplicationPodProvider
    split
    · exact ⟨_, rfl⟩
    · exact ⟨_, findPodAmongProviders_of_list_fault kubeClient hlist providers⟩

/-- Witness for C12: the second id of the third provider is the first that
resolves; an unknown id alone gives an error; so does a failing pod listing. -/
theorem FindApplicationPodProvider_first_resolvable_witness :
    (exScalerWith 2).kubeClient.faults.podList = false ∧
    FindApplicationPodProvider (exScalerWith 2).kubeClient
      [none, some ⟨.APPLICATION, ["pod-uid-1"]⟩, some ⟨.CONTAINER_POD, ["ghost", "pod-uid-1"]⟩] =
      .ret (some exPod) none ∧
    (∃ err, FindApplicationPodProvider (exScalerWith 2).kubeClient
      [some ⟨.CONTAINER_POD, ["ghost"]⟩] = .ret none (some err)) ∧
    (∃ err, FindApplicationPodProvider
      { (exScalerWith 2).kubeClient with faults := { Faults.none with podList := true } }
      [some ⟨.CONTAINER_POD, ["pod-uid-1"]⟩] = .ret none (some err)) :=
  ⟨by decide,
   (((FindApplicationPodProvider_first_resolvable (exScalerWith 2).kubeClient
      [none, some ⟨.APPLICATION, ["pod-uid-1"]⟩,
        some ⟨.CONTAINER_POD, ["ghost", "pod-uid-1"]⟩]).1 (by decide)).2.1 exPod).2
      ⟨["ghost"], "pod-uid-1", [], by decide, by decide, by decide⟩,
   ((FindApplicationPodProvider_first_resolvable (exScalerWith 2).kubeClient
      [some ⟨.CONTAINER_POD, ["ghost"]⟩]).1 (by decide)).2.2.2 (Or.inr (by decide)),
   (FindApplicationPodProvider_first_resolvable
      { (exScalerWith 2).kubeClient with faults := { Faults.none with podList := true } }
      [some ⟨.CONTAINER_POD, ["pod-uid-1"]⟩]).2 (by decide)⟩

/-! ## Planned and mutated controller (C13) -/

/-- C13 (the code at the failing input): `rc-1` (2 replicas) is listed before
`rc-fe` (5 replicas) and the pod of `rc-fe` also satisfies the selector of
`rc-1`. The plan reads the replica count of the first controller matching the
pod's labels, `rc-1`, and builds the scale spec 2 to 3; `updateReplica` fetches
the controller named by the parent reference, `rc-fe`, and writes 3 to it. The
provision leaves `rc-fe` with 3 replicas instead of 6, in an unchanged cluster. -/
theorem update_writes_other_controller :
    getProviderPod exTwoControllers (exItemFor .PROVISION "pod-uid-5") =
      .ret (some exFrontPod) none ∧
    FindReplicationControllerForPod exTwoControllers.kubeClient exFrontPod =
      .ret (some exRC) none ∧
    exRC.Replicas = some 2 ∧
    getReplicationController exTwoControllers.kubeClient "ns" "rc-fe" =
      .ret (some exFrontRC) none ∧
    exFrontRC.Replicas = some 5 ∧
    buildPendingScalingTurboAction exTwoControllers (exItemFor .PROVISION "pod-uid-5") =
      .ret (some (NewTurboAction "ns" "action-1" .ActionProvision
        { TargetObjectUID := "pod-uid-5", TargetObjectNamespace := "ns"
          TargetObjectName := "fe-1", TargetObjectType := TypePod }
        { OriginalReplicas := 2, NewReplicas := 3 }
        { ParentObjectUID := "rc-uid-fe", ParentObjectNamespace := "ns"
          ParentObjectName := "rc-fe", ParentObjectType := TypeReplicationController })) none ∧
    (Execute exTwoControllers (some (exItemFor .PROVISION "pod-uid-5"))).trace.filter
      Event.isUpdate = [.updateRC { exFrontRC with Replicas := some 3 }] ∧
    (Execute exTwoControllers
      (some (exItemFor .PROVISION "pod-uid-5"))).scaler.kubeClient.cluster.rcs =
      [exRC, { exFrontRC with Replicas := some 3 }] := by
  decide

/-! ## The API client (C14) -/

/-- C14: when the request is created and sent and the body of the response is
read successfully, `apiPost`, `apiGet` and `apiDelete` return the body with a
nil error for status code 200, and the empty string with a nil error for every
other status code. -/
theorem api_calls_status (http : HttpLayer) (vmtApi : VmtApi) (url data : String)
    (resp : Response) (content : String) (hbody : resp.Body = some content) :
    (http.NewRequest "POST" (vmtApi.vmtUrl ++ "/vmturbo/api" ++ url ++ data) = true →
      http.Do "POST" (vmtApi.vmtUrl ++ "/vmturbo/api" ++ url ++ data)
        (vmtApi.extConfig.index "Username") (vmtApi.extConfig.index "Password") = some resp →
      (resp.StatusCode = 200 → apiPost http vmtApi url data = .ret content none) ∧
      (resp.StatusCode ≠ 200 → apiPost http vmtApi url data = .ret "" none)) ∧
    (http.NewRequest "GET" (vmtApi.vmtUrl ++ "/vmturbo/api" ++ url) = true →
      http.Do "GET" (vmtApi.vmtUrl ++ "/vmturbo/api" ++ url)
        (vmtApi.extConfig.index "Username") (vmtApi.extConfig.index "Password") = some resp →
      (resp.StatusCode = 200 → apiGet http vmtApi url = .ret content none) ∧
      (resp.StatusCode ≠ 200 → apiGet http vmtApi url = .ret "" none)) ∧
    (http.NewRequest "DELETE" (vmtApi.vmtUrl ++ "/vmturbo/api" ++ url) = true →
      http.Do "DELETE" (vmtApi.vmtUrl ++ "/vmturbo/api" ++ url)
        (vmtApi.extConfig.index "Username") (vmtApi.extConfig.index "Password") = some resp →
      (resp.StatusCode = 200 → apiDelete http vmtApi url = .ret content none) ∧
      (resp.StatusCode ≠ 200 → apiDelete http vmtApi url = .ret "" none)) := by
  refine ⟨?_, ?_, ?_⟩
  · intro hreq hdo
    constructor
    · intro hs
      simp [apiPost, hreq, hdo, parseAPICallResponse, hbody, hs]
    · intro hs
      simp [apiPost, hreq, hdo, parseAPICallResponse, hbody, hs]
  · intro hreq hdo
    constructor
    · intro hs
      simp [apiGet, hreq, hdo, parseAPICallResponse, hbody, hs]
    · intro hs
      simp [apiGet, hreq, hdo, parseAPICallResponse, hbody, hs]
  · intro hreq hdo
    constructor
    · intro hs
      simp [apiDelete, hreq, hdo, parseAPICallResponse, hbody, hs]
    · intro hs
      simp [apiDelete, hreq, hdo, parseAPICallResponse, hbody, hs]

/-- Witness for C14: a response with status 200 and one with status 404. -/
theorem api_calls_status_witness :
    (apiPost (exHttp ⟨200, some "body"⟩) exVmtApi "/markets" "?x=1" = .ret "body" none ∧
      apiGet (exHttp ⟨200, some "body"⟩) exVmtApi "/markets" = .ret "body" none ∧
      apiDelete (exHttp ⟨200, some "body"⟩) exVmtApi "/markets" = .ret "body" none) ∧
    (apiPost (exHttp ⟨404, some "not found"⟩) exVmtApi "/markets" "?x=1" = .ret "" none ∧
      apiGet (exHttp ⟨404, some "not found"⟩) exVmtApi "/markets" = .ret "" none ∧
      apiDelete (exHttp ⟨404, some "not found"⟩) exVmtApi "/markets" = .ret "" none) :=
  ⟨⟨((api_calls_status (exHttp ⟨200, some "body"⟩) exVmtApi "/markets" "?x=1"
        ⟨200, some "body"⟩ "body" rfl).1 rfl rfl).1 (by decide),
    ((api_calls_status (exHttp ⟨200, some "body"⟩) exVmtApi "/markets" "?x=1"
        ⟨200, some "body"⟩ "body" rfl).2.1 rfl rfl).1 (by decide),
    ((api_calls_status (exHttp ⟨200, some "body"⟩) exVmtApi "/markets" "?x=1"
        ⟨200, some "body"⟩ "body" rfl).2.2 rfl rfl).1 (by decide)⟩,
   ⟨((api_calls_status (exHttp ⟨404, some "not found"⟩) exVmtApi "/markets" "?x=1"
        ⟨404, some "not found"⟩ "not found" rfl).1 rfl rfl).2 (by decide),
    ((api_calls_status (exHttp ⟨404, some "not found"⟩) exVmtApi "/markets" "?x=1"
        ⟨404, some "not found"⟩ "not found" rfl).2.1 rfl rfl).2 (by decide),
    ((api_calls_status (exHttp ⟨404, some "not found"⟩) exVmtApi "/markets" "?x=1"
        ⟨404, some "not found"⟩ "not found" rfl).2.2 rfl rfl).2 (by decide)⟩⟩

end Kubeturbo
